import Mathlib

/-!
Shallow embedding of the Data-Pipeline-Builder extraction component
(`src/etl/extract.py`, class `DataExtractor`), together with the parts of the
synthetic dataset generator it calls (`_generate_sample_datasets`).

Tables (pandas `DataFrame`s) are modelled as a list of column names plus a
list of rows, each row a list of cells; a cell is a string, a number, or null
(NaN / None).  The pandas `attrs` dictionary, which the validator fills with
exactly three keys, is modelled as an optional `TableMeta`.  Machine floats in
prices are modelled as integer cents.  `datetime` values are modelled as hours
since 2023-01-01.  The two pseudo-random streams used by the source
(`numpy.random` and Python's `random`, both seeded with 42 inside
`_generate_sample_datasets`) are modelled as two linear-congruential streams
threaded explicitly.  The file system (raw and sample data directories) is an
explicit `Env` value: each directory is an association list from file name to
the parse outcome of that file, and `saveOk` tells which file writes succeed.
-/

/-- One cell of a table: a string value, a numeric value, or a null
(pandas NaN / Python None). -/
inductive Cell
  | str (s : String)
  | nat (n : Nat)
  | null
deriving DecidableEq

/-- The metadata the validator attaches to a table via `df.attrs`:
`extraction_timestamp`, `source_name`, `null_percentage`
(extract.py lines 290-293). -/
structure TableMeta where
  extraction_timestamp : Nat
  source_name : String
  null_percentage : Rat
deriving DecidableEq

/-- A pandas DataFrame: named columns, rows of cells, and the `attrs`
metadata dictionary (empty = `none`). -/
structure DataFrame where
  cols : List String
  rows : List (List Cell)
  attrs : Option TableMeta := none
deriving DecidableEq

/-- pandas `df.empty`: true iff either axis has length zero. -/
def DataFrame.empty (df : DataFrame) : Bool :=
  df.rows.length == 0 || df.cols.length == 0

/-- `true` for a null cell, mirroring `pd.isnull` on one cell. -/
def isNull : Cell → Bool
  | Cell.null => true
  | _ => false

/-- `df.isnull().sum().sum()`: the number of null cells in the table. -/
def nullCells (df : DataFrame) : Nat :=
  (df.rows.map (fun r => r.countP isNull)).sum

/-- `total_cells = len(df) * len(df.columns)` (extract.py line 284). -/
def totalCells (df : DataFrame) : Nat :=
  df.rows.length * df.cols.length

/-- `null_percentage = (null_cells / total_cells) * 100`
(extract.py line 286). -/
def nullPercentage (df : DataFrame) : Rat :=
  ((nullCells df : Rat) / (totalCells df : Rat)) * 100

/-- Outcome of validating one table: kept (with metadata attached) or
rejected with the recorded reason string. -/
inductive TableOutcome
  | kept (df : DataFrame)
  | rejected (reason : String)
deriving DecidableEq

/-- The per-table body of `validate_extracted_data` (extract.py lines
268-295): reject a `None`/empty table, a table with fewer than 2 columns, or
a table with fewer than `min_rows = 10` rows; otherwise attach the metadata
(timestamp `ts` models `datetime.now()`) and keep the table. -/
def checkTable (ts : Nat) (name : String) (odf : Option DataFrame) : TableOutcome :=
  match odf with
  | none => TableOutcome.rejected (name ++ ": Dataset is empty")
  | some df =>
    if df.empty then TableOutcome.rejected (name ++ ": Dataset is empty")
    else if df.cols.length < 2 then
      TableOutcome.rejected (name ++ ": Dataset has too few columns")
    else if df.rows.length < 10 then
      TableOutcome.rejected (name ++ ": Dataset has too few rows")
    else
      TableOutcome.kept
        { df with attrs := some { extraction_timestamp := ts, source_name := name,
                                  null_percentage := nullPercentage df } }

/-- One iteration of the validation loop (extract.py lines 266-298): a
Python exception while validating this table (`Except.error`) is caught and
recorded as a `Validation error` entry; a rejection records its reason; a
kept table is added to `validated_datasets`.  The checker is a parameter so
that the loop's `try/except` structure is explicit. -/
def validateStep (check : String → Option DataFrame → Except String TableOutcome)
    (acc : List (String × Option DataFrame) × List String)
    (p : String × Option DataFrame) :
    List (String × Option DataFrame) × List String :=
  match check p.1 p.2 with
  | Except.error e => (acc.1, acc.2 ++ [p.1 ++ ": Validation error - " ++ e])
  | Except.ok (TableOutcome.rejected reason) => (acc.1, acc.2 ++ [reason])
  | Except.ok (TableOutcome.kept df) => (acc.1 ++ [(p.1, some df)], acc.2)

/-- The whole validation loop over the dataset collection, returning the
validated collection and the accumulated `validation_errors` list. -/
def validateBody (check : String → Option DataFrame → Except String TableOutcome)
    (ds : List (String × Option DataFrame)) :
    List (String × Option DataFrame) × List String :=
  ds.foldl (validateStep check) ([], [])

/-- The outer `try/except` of `validate_extracted_data` (extract.py lines
260-308): if the whole validation body raises, return the original input
collection unchanged (line 308); otherwise return the validated collection. -/
def validateTop
    (body : List (String × Option DataFrame) →
      Except String (List (String × Option DataFrame) × List String))
    (ds : List (String × Option DataFrame)) : List (String × Option DataFrame) :=
  match body ds with
  | Except.ok r => r.1
  | Except.error _ => ds

/-- `DataExtractor.validate_extracted_data` with the concrete (total)
per-table checks of the source: validated collection plus error list. -/
def validate_extracted_data (ts : Nat) (ds : List (String × Option DataFrame)) :
    List (String × Option DataFrame) × List String :=
  validateBody (fun n d => Except.ok (checkTable ts n d)) ds

/-- The parse outcome of a file that is present in a data directory:
either it fails to parse (`pd.read_csv` raises) or it parses to a table. -/
inductive ParsedFile
  | corrupt
  | good (df : DataFrame)
deriving DecidableEq

/-- The file-system environment of the extractor: the CSV files present in
the raw directory and in the sample directory (file name paired with its
parse outcome; a name not in the list is an absent file), and which file
writes succeed (`saveOk`). -/
structure Env where
  raw : List (String × ParsedFile)
  sample : List (String × ParsedFile)
  saveOk : String → Bool

/-- Look a file up in a directory listing by name. -/
def lookupFile (dir : List (String × ParsedFile)) (fn : String) : Option ParsedFile :=
  (dir.find? (fun p => p.1 == fn)).map (fun p => p.2)

/-- `kaggle_files` (extract.py lines 93-100). -/
def kaggle_files : List (String × String) :=
  [("customers", "olist_customers_dataset.csv"),
   ("orders", "olist_orders_dataset.csv"),
   ("order_items", "olist_order_items_dataset.csv"),
   ("products", "olist_products_dataset.csv"),
   ("sellers", "olist_sellers_dataset.csv"),
   ("reviews", "olist_order_reviews_dataset.csv")]

/-- `sample_files` of `_load_existing_sample_data` (extract.py lines
431-438): the same name-to-file mapping as the raw loader. -/
def sample_files : List (String × String) :=
  [("customers", "olist_customers_dataset.csv"),
   ("orders", "olist_orders_dataset.csv"),
   ("order_items", "olist_order_items_dataset.csv"),
   ("products", "olist_products_dataset.csv"),
   ("sellers", "olist_sellers_dataset.csv"),
   ("reviews", "olist_order_reviews_dataset.csv")]

/-- `file_mapping` of `_save_sample_data` (extract.py lines 454-461). -/
def file_mapping : List (String × String) :=
  [("customers", "olist_customers_dataset.csv"),
   ("orders", "olist_orders_dataset.csv"),
   ("order_items", "olist_order_items_dataset.csv"),
   ("products", "olist_products_dataset.csv"),
   ("sellers", "olist_sellers_dataset.csv"),
   ("reviews", "olist_order_reviews_dataset.csv")]

/-- One iteration of the `extract_from_kaggle` loop (extract.py lines
105-117): a file that exists and parses is added to `datasets`; a file that
is absent, or raises while being read, is appended to `missing_files`. -/
def kaggleStep (env : Env)
    (acc : List (String × Option DataFrame) × List String) (p : String × String) :
    List (String × Option DataFrame) × List String :=
  match lookupFile env.raw p.2 with
  | some (ParsedFile.good df) => (acc.1 ++ [(p.1, some df)], acc.2)
  | some ParsedFile.corrupt => (acc.1, acc.2 ++ [p.2])
  | none => (acc.1, acc.2 ++ [p.2])

/-- `DataExtractor.extract_from_kaggle` (extract.py lines 82-127): load the
six expected files; if any is missing (or failed to parse), return `None`,
otherwise the collection. -/
def extract_from_kaggle (env : Env) : Option (List (String × Option DataFrame)) :=
  let res := kaggle_files.foldl (kaggleStep env) ([], [])
  if res.2.isEmpty then some res.1 else none

/-- One iteration of the `_load_existing_sample_data` loop (extract.py lines
440-448): a file that exists and parses is added; an absent file is simply
skipped, and a parse failure is logged and skipped — no failure signal. -/
def sampleLoadStep (env : Env)
    (acc : List (String × Option DataFrame)) (p : String × String) :
    List (String × Option DataFrame) :=
  match lookupFile env.sample p.2 with
  | some (ParsedFile.good df) => acc ++ [(p.1, some df)]
  | some ParsedFile.corrupt => acc
  | none => acc

/-- `DataExtractor._load_existing_sample_data` (extract.py lines 427-450):
returns whatever subset of the six sample files loads successfully. -/
def load_existing_sample_data (env : Env) : List (String × Option DataFrame) :=
  sample_files.foldl (sampleLoadStep env) []

/-- `DataExtractor._save_sample_data` (extract.py lines 452-470): for each
table whose name is in `file_mapping`, try to write its file into the sample
directory; a write failure (`saveOk` false) is logged and swallowed, leaving
the remaining tables unaffected. -/
def save_sample_data (env : Env) (ds : List (String × Option DataFrame)) : Env :=
  { env with sample :=
      ds.foldl (fun s p =>
        match file_mapping.find? (fun q => q.1 == p.1), p.2 with
        | some q, some df => if env.saveOk q.2 then s ++ [(q.2, ParsedFile.good df)] else s
        | _, _ => s) env.sample }

/-! ## Synthetic dataset generator (`_generate_sample_datasets`, lines 310-425)

The source seeds both `numpy.random` and `random` with 42 and then draws from
the two streams.  The streams are modelled as two linear-congruential
generators carried in an `RngPair`; draw order follows the source. -/

/-- Advance one pseudo-random stream (a linear-congruential model of a
seeded PRNG). -/
def lcgNext (s : Nat) : Nat :=
  (75 * s + 74) % 65537

/-- The two pseudo-random streams of the source: `np` models the global
`numpy.random` state, `py` models the global `random` module state. -/
structure RngPair where
  np : Nat
  py : Nat
deriving DecidableEq

/-- Draw a value below `n` from the numpy stream. -/
def npDraw (r : RngPair) (n : Nat) : Nat × RngPair :=
  let s := lcgNext r.np
  (if n == 0 then 0 else s % n, { r with np := s })

/-- Draw a value below `n` from the Python `random` stream. -/
def pyDraw (r : RngPair) (n : Nat) : Nat × RngPair :=
  let s := lcgNext r.py
  (if n == 0 then 0 else s % n, { r with py := s })

/-- `n` successive advances of one pseudo-random stream.  The guard always
holds; it is definitionally stuck on a symbolic state, which keeps
normalisation of state expressions shallow. -/
def lcgPow (n s : Nat) : Nat := if s + 0 = s then lcgNext^[n] s else 0

/-- Python `random.randint(a, b)`: uniform on the inclusive range `[a, b]`. -/
def pyRandint (a b : Nat) (r : RngPair) : Nat × RngPair :=
  let v := pyDraw r (b + 1 - a)
  (a + v.1, v.2)

/-- `np.random.randint(lo, hi)` for one value: uniform on `[lo, hi)`. -/
def npRandint (lo hi : Nat) (r : RngPair) : Nat × RngPair :=
  let v := npDraw r (hi - lo)
  (lo + v.1, v.2)

/-- `np.random.choice(opts)`: one uniform element of the list. -/
def npChoice (opts : List α) (d : α) (r : RngPair) : α × RngPair :=
  let v := npDraw r opts.length
  (opts.getD v.1 d, v.2)

/-- The values of `np.random.randint(lo, hi, n)`: `n` successive draws,
each advancing the numpy stream. -/
def npRandintValues (lo hi : Nat) : Nat → RngPair → List Nat
  | 0, _ => []
  | n + 1, r =>
    let v := npRandint lo hi r
    v.1 :: npRandintValues lo hi n v.2

/-- `np.random.randint(lo, hi, n)`: a column of `n` draws; the stream state
after the column is the start state advanced `n` times, written in closed
form. -/
def npRandintList (lo hi n : Nat) (r : RngPair) : List Nat × RngPair :=
  (npRandintValues lo hi n r, { np := lcgPow n r.np, py := r.py })

/-- The values of `np.random.choice(opts, n)`. -/
def npChoiceValues (opts : List String) : Nat → RngPair → List String
  | 0, _ => []
  | n + 1, r =>
    let v := npChoice opts "" r
    v.1 :: npChoiceValues opts n v.2

/-- `np.random.choice(opts, n)`: a column of `n` uniform choices; the
stream state after the column is written in closed form. -/
def npChoiceList (opts : List String) (n : Nat) (r : RngPair) : List String × RngPair :=
  (npChoiceValues opts n r, { np := lcgPow n r.np, py := r.py })

/-- `random.uniform(lo, hi)` rounded to 2 decimals, in integer cents. -/
def pyUniformCents (lo hi : Nat) (r : RngPair) : Nat × RngPair :=
  let v := pyDraw r ((hi - lo) * 100)
  (lo * 100 + v.1, v.2)

/-- Zero-padded decimal formatting, Python `f"{n:0wd}"`. -/
def zeroPad (w n : Nat) : String :=
  let s := Nat.repr n
  String.mk (List.replicate (w - s.length) '0') ++ s

/-- A generated customer row (extract.py lines 322-331). -/
structure Customer where
  customer_id : String
  customer_unique_id : String
  customer_zip_code_prefix : Nat
  customer_city : String
  customer_state : String
deriving DecidableEq

/-- A generated product row (extract.py lines 336-346). -/
structure Product where
  product_id : String
  product_category_name : String
  product_name_length : Nat
  product_description_length : Nat
  product_photos_qty : Nat
  product_weight_g : Nat
  product_length_cm : Nat
  product_height_cm : Nat
  product_width_cm : Nat
deriving DecidableEq

/-- A generated seller row (extract.py lines 350-357). -/
structure Seller where
  seller_id : String
  seller_zip_code_prefix : Nat
  seller_city : String
  seller_state : String
deriving DecidableEq

/-- A generated order row (extract.py lines 367-378); timestamps are hours
since 2023-01-01. -/
structure Order where
  order_id : String
  customer_id : String
  order_status : String
  order_purchase_timestamp : Nat
  order_approved_at : Nat
  order_delivered_carrier_date : Nat
  order_delivered_customer_date : Nat
  order_estimated_delivery_date : Nat
deriving DecidableEq

/-- A generated order-item row (extract.py lines 389-397); price and
freight are in integer cents. -/
structure OrderItem where
  order_id : String
  order_item_id : Nat
  product_id : String
  seller_id : String
  shipping_limit_date : Nat
  price : Nat
  freight_value : Nat
deriving DecidableEq

/-- A generated review row (extract.py lines 406-414). -/
structure Review where
  review_id : String
  order_id : String
  review_score : Nat
  review_comment_title : String
  review_comment_message : String
  review_creation_date : Nat
  review_answer_timestamp : Option Nat
deriving DecidableEq

/-- `num_customers = 1000` (extract.py line 321). -/
def num_customers : Nat := 1000

/-- `num_products = 500` (extract.py line 334). -/
def num_products : Nat := 500

/-- `num_sellers = 200` (extract.py line 349). -/
def num_sellers : Nat := 200

/-- `num_orders = 2000` (extract.py line 360). -/
def num_orders : Nat := 2000

/-- City options for generated customers (extract.py lines 326-329). -/
def customerCityOptions : List String :=
  ["São Paulo", "Rio de Janeiro", "Belo Horizonte", "Salvador",
   "Brasília", "Fortaleza", "Curitiba"]

/-- State options for generated customers (extract.py line 330). -/
def customerStateOptions : List String :=
  ["SP", "RJ", "MG", "BA", "DF", "CE", "PR"]

/-- `categories` for generated products (extract.py line 335). -/
def productCategories : List String :=
  ["Electronics", "Fashion", "Home", "Sports", "Books", "Beauty", "Health"]

/-- City options for generated sellers (extract.py lines 353-355). -/
def sellerCityOptions : List String :=
  ["São Paulo", "Rio de Janeiro", "Belo Horizonte", "Salvador"]

/-- State options for generated sellers (extract.py line 356). -/
def sellerStateOptions : List String :=
  ["SP", "RJ", "MG", "BA"]

/-- Generate the Customers table column-wise, as numpy does (extract.py
lines 320-331): ids are formatted sequences, the zip, city and state columns
are drawn from the numpy stream. -/
def genCustomers (r : RngPair) : List Customer × RngPair :=
  let ids := (List.range num_customers).map (fun i => "CUST_" ++ zeroPad 6 (i + 1))
  let uniq := (List.range num_customers).map (fun i => "UNIQ_" ++ zeroPad 6 (i + 1))
  let zips := npRandintList 10000 99999 num_customers r
  let cities := npChoiceList customerCityOptions num_customers zips.2
  let states := npChoiceList customerStateOptions num_customers cities.2
  ((List.range num_customers).map (fun i =>
    { customer_id := ids.getD i "", customer_unique_id := uniq.getD i "",
      customer_zip_code_prefix := zips.1.getD i 0,
      customer_city := cities.1.getD i "", customer_state := states.1.getD i "" }),
   states.2)

/-- Generate the Products table column-wise (extract.py lines 333-346). -/
def genProducts (r : RngPair) : List Product × RngPair :=
  let ids := (List.range num_products).map (fun i => "PROD_" ++ zeroPad 6 (i + 1))
  let cats := npChoiceList productCategories num_products r
  let nameLen := npRandintList 20 80 num_products cats.2
  let descLen := npRandintList 100 500 num_products nameLen.2
  let photos := npRandintList 1 10 num_products descLen.2
  let weight := npRandintList 50 5000 num_products photos.2
  let length := npRandintList 5 50 num_products weight.2
  let height := npRandintList 2 30 num_products length.2
  let width := npRandintList 5 40 num_products height.2
  ((List.range num_products).map (fun i =>
    { product_id := ids.getD i "", product_category_name := cats.1.getD i "",
      product_name_length := nameLen.1.getD i 0,
      product_description_length := descLen.1.getD i 0,
      product_photos_qty := photos.1.getD i 0, product_weight_g := weight.1.getD i 0,
      product_length_cm := length.1.getD i 0, product_height_cm := height.1.getD i 0,
      product_width_cm := width.1.getD i 0 }),
   width.2)

/-- Generate the Sellers table column-wise (extract.py lines 348-357). -/
def genSellers (r : RngPair) : List Seller × RngPair :=
  let ids := (List.range num_sellers).map (fun i => "SELL_" ++ zeroPad 6 (i + 1))
  let zips := npRandintList 10000 99999 num_sellers r
  let cities := npChoiceList sellerCityOptions num_sellers zips.2
  let states := npChoiceList sellerStateOptions num_sellers cities.2
  ((List.range num_sellers).map (fun i =>
    { seller_id := ids.getD i "", seller_zip_code_prefix := zips.1.getD i 0,
      seller_city := cities.1.getD i "", seller_state := states.1.getD i "" }),
   states.2)

/-- `np.random.choice([...], p=[0.7, 0.15, 0.1, 0.05])` for the order
status (extract.py lines 370-372): a categorical draw over percentages. -/
def npStatusChoice (r : RngPair) : String × RngPair :=
  let v := npDraw r 100
  (if v.1 < 70 then "delivered"
   else if v.1 < 85 then "shipped"
   else if v.1 < 95 then "processing"
   else "canceled", v.2)

/-- Generate one order (one iteration of the loop at extract.py lines
364-378).  `order_date` is drawn as days and held in hours; the remaining
timedelta draws follow the source order. -/
def genOrder (i : Nat) (custIds : List String) (r : RngPair) : Order × RngPair :=
  let d := pyRandint 0 365 r
  let orderDate := 24 * d.1
  let cust := npChoice custIds "" d.2
  let st := npStatusChoice cust.2
  let h1 := pyRandint 1 48 st.2
  let d1 := pyRandint 1 5 h1.2
  let d2 := pyRandint 3 15 d1.2
  let d3 := pyRandint 7 30 d2.2
  ({ order_id := "ORD_" ++ zeroPad 8 i, customer_id := cust.1, order_status := st.1,
     order_purchase_timestamp := orderDate,
     order_approved_at := orderDate + h1.1,
     order_delivered_carrier_date := orderDate + 24 * d1.1,
     order_delivered_customer_date := orderDate + 24 * d2.1,
     order_estimated_delivery_date := orderDate + 24 * d3.1 }, d3.2)

/-- Generate `n` orders starting at index `i` (the loop at extract.py
lines 362-380). -/
def genOrdersAux (custIds : List String) : Nat → Nat → RngPair → List Order × RngPair
  | 0, _, r => ([], r)
  | n + 1, i, r =>
    let o := genOrder i custIds r
    let rest := genOrdersAux custIds n (i + 1) o.2
    (o.1 :: rest.1, rest.2)

/-- Generate one order item (one iteration of the inner loop at extract.py
lines 387-397): the price is drawn first, then the product and seller
choices; freight is a tenth of the price. -/
def genItem (o : Order) (itemId : Nat) (prodIds sellIds : List String)
    (r : RngPair) : OrderItem × RngPair :=
  let price := pyUniformCents 10 500 r
  let prod := npChoice prodIds "" price.2
  let sell := npChoice sellIds "" prod.2
  ({ order_id := o.order_id, order_item_id := itemId, product_id := prod.1,
     seller_id := sell.1,
     shipping_limit_date := o.order_purchase_timestamp + 24 * 7,
     price := price.1, freight_value := price.1 / 10 }, sell.2)

/-- Generate `n` items for one order, numbered from `itemId`. -/
def genItemsAux (o : Order) (prodIds sellIds : List String) :
    Nat → Nat → RngPair → List OrderItem × RngPair
  | 0, _, r => ([], r)
  | n + 1, itemId, r =>
    let it := genItem o itemId prodIds sellIds r
    let rest := genItemsAux o prodIds sellIds n (itemId + 1) it.2
    (it.1 :: rest.1, rest.2)

/-- Items of one order: `num_items = random.randint(1, 4)` then the item
loop `for item_id in range(1, num_items + 1)` (extract.py lines 385-397). -/
def genItemsForOrder (o : Order) (prodIds sellIds : List String)
    (r : RngPair) : List OrderItem × RngPair :=
  let n := pyRandint 1 4 r
  genItemsAux o prodIds sellIds n.1 1 n.2

/-- The order-items loop over all orders (extract.py lines 383-397). -/
def genOrderItems (prodIds sellIds : List String) :
    List Order → RngPair → List OrderItem × RngPair
  | [], r => ([], r)
  | o :: os, r =>
    let its := genItemsForOrder o prodIds sellIds r
    let rest := genOrderItems prodIds sellIds os its.2
    (its.1 ++ rest.1, rest.2)

/-- `pandas.Series.sample(n)` on the numpy stream: draw `n` distinct
positions without replacement. -/
def sampleAux : Nat → List String → RngPair → List String × RngPair
  | 0, _, r => ([], r)
  | n + 1, l, r =>
    if l.isEmpty then ([], r)
    else
      let v := npDraw r l.length
      let rest := sampleAux n (l.eraseIdx v.1) v.2
      (l.getD v.1 "" :: rest.1, rest.2)

/-- `delivered_orders`: the order ids whose status is `delivered`
(extract.py line 402). -/
def deliveredOrderIds (orders : List Order) : List String :=
  (orders.filter (fun o => o.order_status == "delivered")).map (fun o => o.order_id)

/-- `np.random.choice([1,2,3,4,5], p=[0.05,0.1,0.15,0.3,0.4])` for the
review score (extract.py line 409). -/
def npScoreChoice (r : RngPair) : Nat × RngPair :=
  let v := npDraw r 100
  (if v.1 < 5 then 1 else if v.1 < 15 then 2 else if v.1 < 30 then 3
   else if v.1 < 60 then 4 else 5, v.2)

/-- One review for the sampled order id at index `i` (extract.py lines
406-414): the creation date looks the order up by id in the orders table. -/
def genReview (orders : List Order) (i : Nat) (oid : String)
    (r : RngPair) : Review × RngPair :=
  let score := npScoreChoice r
  let base := ((orders.find? (fun o => o.order_id == oid)).map
    (fun o => o.order_delivered_customer_date)).getD 0
  let d := pyRandint 0 7 score.2
  ({ review_id := "REV_" ++ zeroPad 8 (i + 1), order_id := oid,
     review_score := score.1,
     review_comment_title := "Review for order " ++ oid,
     review_comment_message := "Customer feedback for " ++ oid,
     review_creation_date := base + 24 * d.1,
     review_answer_timestamp := none }, d.2)

/-- The review loop over the sampled delivered order ids. -/
def genReviewsAux (orders : List Order) : Nat → List String → RngPair → List Review × RngPair
  | _, [], r => ([], r)
  | i, oid :: rest, r =>
    let rv := genReview orders i oid r
    let more := genReviewsAux orders (i + 1) rest rv.2
    (rv.1 :: more.1, more.2)

/-- `delivered_orders.sample(n=min(800, len(delivered_orders)))` followed by
the review loop (extract.py lines 401-416). -/
def genReviews (orders : List Order) (r : RngPair) : List Review × RngPair :=
  let ids := deliveredOrderIds orders
  let sampled := sampleAux (min 800 ids.length) ids r
  genReviewsAux orders 0 sampled.1 sampled.2

/-- The record-level output of `_generate_sample_datasets`. -/
structure GenRecords where
  customers : List Customer
  products : List Product
  sellers : List Seller
  orders : List Order
  order_items : List OrderItem
  reviews : List Review
deriving DecidableEq

/-- The orders stage of `_generate_sample_datasets`: the sequential
customers, products and sellers column draws advance the streams, then the
order loop runs with the customer id column. -/
def genOrdersStage (r : RngPair) : List Order × RngPair :=
  genOrdersAux ((genCustomers r).1.map (fun c => c.customer_id)) num_orders 1
    (genSellers (genProducts (genCustomers r).2).2).2

/-- The order-items stage, fed by the id columns of the generated products
and sellers and by the generated orders. -/
def genItemsStage (r : RngPair) : List OrderItem × RngPair :=
  genOrderItems ((genProducts (genCustomers r).2).1.map (fun p => p.product_id))
    ((genSellers (genProducts (genCustomers r).2).2).1.map (fun s => s.seller_id))
    (genOrdersStage r).1 (genOrdersStage r).2

/-- The reviews stage: sampling and the review loop over the generated
orders, from the stream states left by the order-items loop. -/
def genReviewsStage (r : RngPair) : List Review × RngPair :=
  genReviews (genOrdersStage r).1 (genItemsStage r).2

/-- The generated customers table (record level). -/
def customersList (r : RngPair) : List Customer := (genCustomers r).1

/-- The generated products table (record level). -/
def productsList (r : RngPair) : List Product := (genProducts (genCustomers r).2).1

/-- The generated sellers table (record level). -/
def sellersList (r : RngPair) : List Seller :=
  (genSellers (genProducts (genCustomers r).2).2).1

/-- The generated orders table (record level). -/
def ordersList (r : RngPair) : List Order := (genOrdersStage r).1

/-- The generated order-items table (record level). -/
def orderItemsList (r : RngPair) : List OrderItem := (genItemsStage r).1

/-- The generated reviews table (record level). -/
def reviewsList (r : RngPair) : List Review := (genReviewsStage r).1

/-- The whole generation pass assembled, each table taken from its stage. -/
def generateRecords (r : RngPair) : GenRecords :=
  { customers := customersList r,
    products := productsList r,
    sellers := sellersList r,
    orders := ordersList r,
    order_items := orderItemsList r,
    reviews := reviewsList r }

/-- `np.random.seed(42); random.seed(42)` (extract.py lines 317-318). -/
def seed42 : RngPair := { np := 42, py := 42 }

/-- An optional timestamp as a cell (`None` becomes a null cell). -/
def optCell : Option Nat → Cell
  | none => Cell.null
  | some n => Cell.nat n

/-- The generated Customers table as a DataFrame. -/
def customersDF (l : List Customer) : DataFrame :=
  { cols := ["customer_id", "customer_unique_id", "customer_zip_code_prefix",
             "customer_city", "customer_state"],
    rows := l.map (fun c =>
      [Cell.str c.customer_id, Cell.str c.customer_unique_id,
       Cell.nat c.customer_zip_code_prefix, Cell.str c.customer_city,
       Cell.str c.customer_state]) }

/-- The generated Products table as a DataFrame. -/
def productsDF (l : List Product) : DataFrame :=
  { cols := ["product_id", "product_category_name", "product_name_length",
             "product_description_length", "product_photos_qty", "product_weight_g",
             "product_length_cm", "product_height_cm", "product_width_cm"],
    rows := l.map (fun p =>
      [Cell.str p.product_id, Cell.str p.product_category_name,
       Cell.nat p.product_name_length, Cell.nat p.product_description_length,
       Cell.nat p.product_photos_qty, Cell.nat p.product_weight_g,
       Cell.nat p.product_length_cm, Cell.nat p.product_height_cm,
       Cell.nat p.product_width_cm]) }

/-- The generated Sellers table as a DataFrame. -/
def sellersDF (l : List Seller) : DataFrame :=
  { cols := ["seller_id", "seller_zip_code_prefix", "seller_city", "seller_state"],
    rows := l.map (fun s =>
      [Cell.str s.seller_id, Cell.nat s.seller_zip_code_prefix,
       Cell.str s.seller_city, Cell.str s.seller_state]) }

/-- The generated Orders table as a DataFrame. -/
def ordersDF (l : List Order) : DataFrame :=
  { cols := ["order_id", "customer_id", "order_status", "order_purchase_timestamp",
             "order_approved_at", "order_delivered_carrier_date",
             "order_delivered_customer_date", "order_estimated_delivery_date"],
    rows := l.map (fun o =>
      [Cell.str o.order_id, Cell.str o.customer_id, Cell.str o.order_status,
       Cell.nat o.order_purchase_timestamp, Cell.nat o.order_approved_at,
       Cell.nat o.order_delivered_carrier_date,
       Cell.nat o.order_delivered_customer_date,
       Cell.nat o.order_estimated_delivery_date]) }

/-- The generated Order-Items table as a DataFrame. -/
def orderItemsDF (l : List OrderItem) : DataFrame :=
  { cols := ["order_id", "order_item_id", "product_id", "seller_id",
             "shipping_limit_date", "price", "freight_value"],
    rows := l.map (fun it =>
      [Cell.str it.order_id, Cell.nat it.order_item_id, Cell.str it.product_id,
       Cell.str it.seller_id, Cell.nat it.shipping_limit_date,
       Cell.nat it.price, Cell.nat it.freight_value]) }

/-- The generated Reviews table as a DataFrame; `review_answer_timestamp`
is `None` in the source, hence a null cell in every row. -/
def reviewsDF (l : List Review) : DataFrame :=
  { cols := ["review_id", "order_id", "review_score", "review_comment_title",
             "review_comment_message", "review_creation_date",
             "review_answer_timestamp"],
    rows := l.map (fun rv =>
      [Cell.str rv.review_id, Cell.str rv.order_id, Cell.nat rv.review_score,
       Cell.str rv.review_comment_title, Cell.str rv.review_comment_message,
       Cell.nat rv.review_creation_date, optCell rv.review_answer_timestamp]) }

/-- The dictionary returned by `_generate_sample_datasets` (extract.py lines
418-425), in source key order, from the given stream states. -/
def generateSampleDatasets (r : RngPair) : List (String × Option DataFrame) :=
  let g := generateRecords r
  [("customers", some (customersDF g.customers)),
   ("products", some (productsDF g.products)),
   ("sellers", some (sellersDF g.sellers)),
   ("orders", some (ordersDF g.orders)),
   ("order_items", some (orderItemsDF g.order_items)),
   ("reviews", some (reviewsDF g.reviews))]

/-- `DataExtractor._generate_sample_datasets` (extract.py lines 310-425):
the seeds are fixed to 42 inside the method, so each run generates from the
same stream states. -/
def generate_sample_datasets : List (String × Option DataFrame) :=
  generateSampleDatasets seed42

/-- `DataExtractor.extract_sample_data` (extract.py lines 129-155): if any
sample file already exists, load the existing sample data; otherwise
generate fresh data, save it (write failures swallowed per file), and return
the generated collection. -/
def extract_sample_data (env : Env) : Option (List (String × Option DataFrame)) × Env :=
  if env.sample.isEmpty then
    let datasets := generate_sample_datasets
    let env2 := save_sample_data env datasets
    (some datasets, env2)
  else
    (some (load_existing_sample_data env), env)

/-- `DataExtractor.extract_from_api` (extract.py lines 157-170): an
unimplemented placeholder that always reports no data. -/
def extract_from_api : Option (List (String × Option DataFrame)) := none

/-- `DataExtractor.extract_data` (extract.py lines 42-80): try Kaggle, then
sample data, then the API; if all fail return `none`; otherwise validate the
obtained collection and return it (paired with the resulting file system). -/
def extract_data (ts : Nat) (env : Env) : Option (List (String × Option DataFrame)) × Env :=
  match extract_from_kaggle env with
  | some ds => (some (validate_extracted_data ts ds).1, env)
  | none =>
    match extract_sample_data env with
    | (some ds, env1) => (some (validate_extracted_data ts ds).1, env1)
    | (none, env1) =>
      match extract_from_api with
      | some ds => (some (validate_extracted_data ts ds).1, env1)
      | none => (none, env1)


/-- The customer id column, which does not depend on the random streams. -/
def customerIdColumn : List String :=
  (List.range num_customers).map (fun i => "CUST_" ++ zeroPad 6 (i + 1))

/-- The contribution of one table to the validated collection: `some` entry
iff its check keeps it.  Used to state that the validation loop treats each
table independently. -/
def keptEntry (check : String → Option DataFrame → Except String TableOutcome)
    (p : String × Option DataFrame) : Option (String × Option DataFrame) :=
  match check p.1 p.2 with
  | Except.ok (TableOutcome.kept df) => some (p.1, some df)
  | _ => none

/-- The contribution of one table to the `validation_errors` list. -/
def errEntry (check : String → Option DataFrame → Except String TableOutcome)
    (p : String × Option DataFrame) : Option String :=
  match check p.1 p.2 with
  | Except.error e => some (p.1 ++ ": Validation error - " ++ e)
  | Except.ok (TableOutcome.rejected reason) => some reason
  | Except.ok (TableOutcome.kept _) => none

/-- Whether a looked-up file is present and parses. -/
def isGoodFile : Option ParsedFile → Bool
  | some (ParsedFile.good _) => true
  | _ => false

/-- The contribution of one expected file to the Kaggle collection. -/
def kaggleGoodEntry (env : Env) (p : String × String) :
    Option (String × Option DataFrame) :=
  match lookupFile env.raw p.2 with
  | some (ParsedFile.good df) => some (p.1, some df)
  | _ => none

/-- The contribution of one expected file to `missing_files`. -/
def kaggleMissEntry (env : Env) (p : String × String) : Option String :=
  match lookupFile env.raw p.2 with
  | some (ParsedFile.good _) => none
  | _ => some p.2

/-- The contribution of one expected file to the loaded sample collection. -/
def sampleLoadedEntry (env : Env) (p : String × String) :
    Option (String × Option DataFrame) :=
  match lookupFile env.sample p.2 with
  | some (ParsedFile.good df) => some (p.1, some df)
  | _ => none

/-- A well-formed 2-column, 10-row table with no nulls (test fixture). -/
def dfTen : DataFrame :=
  { cols := ["a", "b"], rows := List.replicate 10 [Cell.nat 0, Cell.nat 1] }

/-- A 2-column, 9-row table: one row short of the validation minimum. -/
def dfNine : DataFrame :=
  { cols := ["a", "b"], rows := List.replicate 9 [Cell.nat 0, Cell.nat 1] }

/-- A 2-column, 1-row table: parses, but fails the row-count gate. -/
def dfOne : DataFrame :=
  { cols := ["a", "b"], rows := [[Cell.nat 0, Cell.nat 1]] }

/-- A 10-column, 10-row table (100 cells) with exactly 25 null cells. -/
def df100 : DataFrame :=
  { cols := ["c0", "c1", "c2", "c3", "c4", "c5", "c6", "c7", "c8", "c9"],
    rows := List.replicate 2 (List.replicate 10 Cell.null) ++
      [List.replicate 5 Cell.null ++ List.replicate 5 (Cell.nat 1)] ++
      List.replicate 7 (List.replicate 10 (Cell.nat 1)) }

/-- The per-order item-count draw as the specification words it:
`random.randint(1, 5)`, an inclusive draw from 1 to 5.  The source
(extract.py line 385) instead draws `random.randint(1, 4)`; this definition
exists only to be compared with the source's draw. -/
def numItemsSpecDraw (r : RngPair) : Nat := (pyRandint 1 5 r).1

/-- The per-order item-count draw of the source (extract.py line 385). -/
def numItemsSourceDraw (r : RngPair) : Nat := (pyRandint 1 4 r).1

/-! ## General lemmas about the pseudo-random streams and lists -/

theorem lcgPow_eq_iterate (n s : Nat) : lcgPow n s = lcgNext^[n] s := by
  delta lcgPow
  rw [if_pos (Nat.add_zero s)]

theorem lcgPow_add (m n s : Nat) : lcgPow (m + n) s = lcgPow m (lcgPow n s) := by
  rw [lcgPow_eq_iterate, lcgPow_eq_iterate, lcgPow_eq_iterate,
    Function.iterate_add_apply]

theorem getD_mem {α : Type} (l : List α) (i : Nat) (d : α) (h : i < l.length) :
    l.getD i d ∈ l := by
  induction l generalizing i with
  | nil => simp at h
  | cons x xs ih =>
    cases i with
    | zero => simp [List.getD]
    | succ j =>
      simp only [List.getD_cons_succ]
      exact List.mem_cons_of_mem x (ih j (by simpa using h))

theorem eraseIdx_sub {α : Type} (l : List α) (i : Nat) : l.eraseIdx i ⊆ l := by
  induction l generalizing i with
  | nil => simp [List.eraseIdx]
  | cons x xs ih =>
    cases i with
    | zero =>
      simp only [List.eraseIdx]
      exact List.subset_cons_self x xs
    | succ j =>
      intro a ha
      simp only [List.eraseIdx, List.mem_cons] at ha
      rcases ha with h | h
      · simp [h]
      · exact List.mem_cons_of_mem x (ih j h)

theorem length_eraseIdx_lt {α : Type} (l : List α) (i : Nat) (h : i < l.length) :
    (l.eraseIdx i).length + 1 = l.length := by
  induction l generalizing i with
  | nil => simp at h
  | cons x xs ih =>
    cases i with
    | zero => simp [List.eraseIdx]
    | succ j =>
      simp only [List.eraseIdx, List.length_cons]
      rw [ih j (by simpa using h)]

theorem npDraw_snd (r : RngPair) (n : Nat) :
    (npDraw r n).2 = { np := lcgNext r.np, py := r.py } := rfl

theorem pyDraw_snd (r : RngPair) (n : Nat) :
    (pyDraw r n).2 = { np := r.np, py := lcgNext r.py } := rfl

theorem npDraw_fst_lt (r : RngPair) (n : Nat) (h : 0 < n) : (npDraw r n).1 < n := by
  simp only [npDraw]
  rw [if_neg (by simp; omega)]
  exact Nat.mod_lt _ h

theorem pyDraw_fst_lt (r : RngPair) (n : Nat) (h : 0 < n) : (pyDraw r n).1 < n := by
  simp only [pyDraw]
  rw [if_neg (by simp; omega)]
  exact Nat.mod_lt _ h

theorem pyRandint_bounds (a b : Nat) (r : RngPair) (h : a ≤ b) :
    a ≤ (pyRandint a b r).1 ∧ (pyRandint a b r).1 ≤ b := by
  simp only [pyRandint]
  constructor
  · exact Nat.le_add_right a _
  · have hlt : (pyDraw r (b + 1 - a)).1 < b + 1 - a := pyDraw_fst_lt r _ (by omega)
    omega

theorem npChoice_mem {α : Type} (opts : List α) (d : α) (r : RngPair)
    (h : opts ≠ []) : (npChoice opts d r).1 ∈ opts := by
  simp only [npChoice]
  exact getD_mem opts _ d
    (npDraw_fst_lt r opts.length (List.length_pos.mpr h))

theorem npChoice_snd {α : Type} (opts : List α) (d : α) (r : RngPair) :
    (npChoice opts d r).2 = { np := lcgNext r.np, py := r.py } := rfl

theorem npRandintList_snd (lo hi : Nat) (n : Nat) (r : RngPair) :
    (npRandintList lo hi n r).2 = { np := lcgPow n r.np, py := r.py } := by
  delta npRandintList
  with_reducible rfl

theorem npChoiceList_snd (opts : List String) (n : Nat) (r : RngPair) :
    (npChoiceList opts n r).2 = { np := lcgPow n r.np, py := r.py } := by
  delta npChoiceList
  with_reducible rfl

/-! Concrete advancement of the numpy stream through the 7600 column
draws of customers, products and sellers, in kernel-checkable chunks. -/

set_option maxRecDepth 4000 in
theorem lcgChunk0 : lcgPow 200 42 = 56093 := by decide

set_option maxRecDepth 4000 in
theorem lcgChunk1 : lcgPow 200 56093 = 58844 := by decide

set_option maxRecDepth 4000 in
theorem lcgChunk2 : lcgPow 200 58844 = 62834 := by decide

set_option maxRecDepth 4000 in
theorem lcgChunk3 : lcgPow 200 62834 = 6586 := by decide

set_option maxRecDepth 4000 in
theorem lcgChunk4 : lcgPow 200 6586 = 45573 := by decide

set_option maxRecDepth 4000 in
theorem lcgChunk5 : lcgPow 200 45573 = 63097 := by decide

set_option maxRecDepth 4000 in
theorem lcgChunk6 : lcgPow 200 63097 = 53994 := by decide

set_option maxRecDepth 4000 in
theorem lcgChunk7 : lcgPow 200 53994 = 45794 := by decide

set_option maxRecDepth 4000 in
theorem lcgChunk8 : lcgPow 200 45794 = 35902 := by decide

set_option maxRecDepth 4000 in
theorem lcgChunk9 : lcgPow 200 35902 = 16552 := by decide

set_option maxRecDepth 4000 in
theorem lcgChunk10 : lcgPow 200 16552 = 5997 := by decide

set_option maxRecDepth 4000 in
theorem lcgChunk11 : lcgPow 200 5997 = 2695 := by decide

set_option maxRecDepth 4000 in
theorem lcgChunk12 : lcgPow 200 2695 = 38929 := by decide

set_option maxRecDepth 4000 in
theorem lcgChunk13 : lcgPow 200 38929 = 23944 := by decide

set_option maxRecDepth 4000 in
theorem lcgChunk14 : lcgPow 200 23944 = 28725 := by decide

set_option maxRecDepth 4000 in
theorem lcgChunk15 : lcgPow 200 28725 = 12146 := by decide

set_option maxRecDepth 4000 in
theorem lcgChunk16 : lcgPow 200 12146 = 28623 := by decide

set_option maxRecDepth 4000 in
theorem lcgChunk17 : lcgPow 200 28623 = 65028 := by decide

set_option maxRecDepth 4000 in
theorem lcgChunk18 : lcgPow 200 65028 = 30780 := by decide

set_option maxRecDepth 4000 in
theorem lcgChunk19 : lcgPow 200 30780 = 53148 := by decide

set_option maxRecDepth 4000 in
theorem lcgChunk20 : lcgPow 200 53148 = 41065 := by decide

set_option maxRecDepth 4000 in
theorem lcgChunk21 : lcgPow 200 41065 = 7531 := by decide

set_option maxRecDepth 4000 in
theorem lcgChunk22 : lcgPow 200 7531 = 52947 := by decide

set_option maxRecDepth 4000 in
theorem lcgChunk23 : lcgPow 200 52947 = 25765 := by decide

set_option maxRecDepth 4000 in
theorem lcgChunk24 : lcgPow 200 25765 = 9854 := by decide

set_option maxRecDepth 4000 in
theorem lcgChunk25 : lcgPow 200 9854 = 48812 := by decide

set_option maxRecDepth 4000 in
theorem lcgChunk26 : lcgPow 200 48812 = 13264 := by decide

set_option maxRecDepth 4000 in
theorem lcgChunk27 : lcgPow 200 13264 = 45253 := by decide

set_option maxRecDepth 4000 in
theorem lcgChunk28 : lcgPow 200 45253 = 22110 := by decide

set_option maxRecDepth 4000 in
theorem lcgChunk29 : lcgPow 200 22110 = 26065 := by decide

set_option maxRecDepth 4000 in
theorem lcgChunk30 : lcgPow 200 26065 = 27799 := by decide

set_option maxRecDepth 4000 in
theorem lcgChunk31 : lcgPow 200 27799 = 46323 := by decide

set_option maxRecDepth 4000 in
theorem lcgChunk32 : lcgPow 200 46323 = 9654 := by decide

set_option maxRecDepth 4000 in
theorem lcgChunk33 : lcgPow 200 9654 = 15003 := by decide

set_option maxRecDepth 4000 in
theorem lcgChunk34 : lcgPow 200 15003 = 36769 := by decide

set_option maxRecDepth 4000 in
theorem lcgChunk35 : lcgPow 200 36769 = 25814 := by decide

set_option maxRecDepth 4000 in
theorem lcgChunk36 : lcgPow 200 25814 = 20431 := by decide

set_option maxRecDepth 4000 in
theorem lcgChunk37 : lcgPow 200 20431 = 38138 := by decide

theorem npColumnsState42 : lcgPow 7600 42 = 38138 := by
  have h : (7600 : Nat) = 200 + 200 + 200 + 200 + 200 + 200 + 200 + 200 + 200 + 200 + 200 + 200 + 200 + 200 + 200 + 200 + 200 + 200 + 200 + 200 + 200 + 200 + 200 + 200 + 200 + 200 + 200 + 200 + 200 + 200 + 200 + 200 + 200 + 200 + 200 + 200 + 200 + 200 := by norm_num
  rw [h]
  rw [lcgPow_add]
  rw [lcgPow_add]
  rw [lcgPow_add]
  rw [lcgPow_add]
  rw [lcgPow_add]
  rw [lcgPow_add]
  rw [lcgPow_add]
  rw [lcgPow_add]
  rw [lcgPow_add]
  rw [lcgPow_add]
  rw [lcgPow_add]
  rw [lcgPow_add]
  rw [lcgPow_add]
  rw [lcgPow_add]
  rw [lcgPow_add]
  rw [lcgPow_add]
  rw [lcgPow_add]
  rw [lcgPow_add]
  rw [lcgPow_add]
  rw [lcgPow_add]
  rw [lcgPow_add]
  rw [lcgPow_add]
  rw [lcgPow_add]
  rw [lcgPow_add]
  rw [lcgPow_add]
  rw [lcgPow_add]
  rw [lcgPow_add]
  rw [lcgPow_add]
  rw [lcgPow_add]
  rw [lcgPow_add]
  rw [lcgPow_add]
  rw [lcgPow_add]
  rw [lcgPow_add]
  rw [lcgPow_add]
  rw [lcgPow_add]
  rw [lcgPow_add]
  rw [lcgPow_add]
  rw [lcgChunk0]
  rw [lcgChunk1]
  rw [lcgChunk2]
  rw [lcgChunk3]
  rw [lcgChunk4]
  rw [lcgChunk5]
  rw [lcgChunk6]
  rw [lcgChunk7]
  rw [lcgChunk8]
  rw [lcgChunk9]
  rw [lcgChunk10]
  rw [lcgChunk11]
  rw [lcgChunk12]
  rw [lcgChunk13]
  rw [lcgChunk14]
  rw [lcgChunk15]
  rw [lcgChunk16]
  rw [lcgChunk17]
  rw [lcgChunk18]
  rw [lcgChunk19]
  rw [lcgChunk20]
  rw [lcgChunk21]
  rw [lcgChunk22]
  rw [lcgChunk23]
  rw [lcgChunk24]
  rw [lcgChunk25]
  rw [lcgChunk26]
  rw [lcgChunk27]
  rw [lcgChunk28]
  rw [lcgChunk29]
  rw [lcgChunk30]
  rw [lcgChunk31]
  rw [lcgChunk32]
  rw [lcgChunk33]
  rw [lcgChunk34]
  rw [lcgChunk35]
  rw [lcgChunk36]
  rw [lcgChunk37]

theorem genCustomers_snd (r : RngPair) :
    (genCustomers r).2 = { np := lcgPow 3000 r.np, py := r.py } := by
  delta genCustomers
  simp only [npRandintList_snd, npChoiceList_snd]
  have h : (3000 : Nat) = 1000 + (1000 + 1000) := by norm_num
  rw [h, lcgPow_add, lcgPow_add]
  rfl

theorem genProducts_snd (r : RngPair) :
    (genProducts r).2 = { np := lcgPow 4000 r.np, py := r.py } := by
  delta genProducts
  simp only [npRandintList_snd, npChoiceList_snd]
  have h : (4000 : Nat) = 500 + (500 + (500 + (500 + (500 + (500 + (500 + 500)))))) := by
    norm_num
  rw [h, lcgPow_add, lcgPow_add, lcgPow_add, lcgPow_add, lcgPow_add, lcgPow_add,
    lcgPow_add]
  rfl

theorem genSellers_snd (r : RngPair) :
    (genSellers r).2 = { np := lcgPow 600 r.np, py := r.py } := by
  delta genSellers
  simp only [npRandintList_snd, npChoiceList_snd]
  have h : (600 : Nat) = 200 + (200 + 200) := by norm_num
  rw [h, lcgPow_add, lcgPow_add]
  rfl

theorem columnsState (r : RngPair) :
    (genSellers (genProducts (genCustomers r).2).2).2 =
      { np := lcgPow 7600 r.np, py := r.py } := by
  rw [genSellers_snd, genProducts_snd, genCustomers_snd]
  have h : (7600 : Nat) = 600 + (4000 + 3000) := by norm_num
  rw [h, lcgPow_add, lcgPow_add]

theorem map_range_getD {α : Type} (d : α) :
    ∀ (l : List α), (List.range l.length).map (fun i => l.getD i d) = l := by
  intro l
  induction l with
  | nil => simp
  | cons x xs ih =>
    rw [List.length_cons, List.range_succ_eq_map, List.map_cons, List.map_map]
    simp only [List.getD_cons_zero, Function.comp_def, List.getD_cons_succ, ih]

theorem generateRecords_eq (r : RngPair) :
    generateRecords r =
      { customers := customersList r,
        products := productsList r,
        sellers := sellersList r,
        orders := ordersList r,
        order_items := orderItemsList r,
        reviews := reviewsList r } := by
  delta generateRecords
  with_reducible rfl

theorem customers_field (r : RngPair) :
    (generateRecords r).customers = customersList r := by
  rw [generateRecords_eq]

theorem products_field (r : RngPair) :
    (generateRecords r).products = productsList r := by
  rw [generateRecords_eq]

theorem sellers_field (r : RngPair) :
    (generateRecords r).sellers = sellersList r := by
  rw [generateRecords_eq]

theorem orders_field (r : RngPair) :
    (generateRecords r).orders = ordersList r := by
  rw [generateRecords_eq]

theorem items_field (r : RngPair) :
    (generateRecords r).order_items = orderItemsList r := by
  rw [generateRecords_eq]

theorem reviews_field (r : RngPair) :
    (generateRecords r).reviews = reviewsList r := by
  rw [generateRecords_eq]

theorem customersList_full (r : RngPair) : customersList r = (genCustomers r).1 := by
  delta customersList
  with_reducible rfl

theorem productsList_full (r : RngPair) :
    productsList r = (genProducts (genCustomers r).2).1 := by
  delta productsList
  with_reducible rfl

theorem sellersList_full (r : RngPair) :
    sellersList r = (genSellers (genProducts (genCustomers r).2).2).1 := by
  delta sellersList
  with_reducible rfl

theorem ordersList_full (r : RngPair) : ordersList r = (genOrdersStage r).1 := by
  delta ordersList
  with_reducible rfl

theorem orderItemsList_full (r : RngPair) : orderItemsList r = (genItemsStage r).1 := by
  delta orderItemsList
  with_reducible rfl

theorem reviewsList_full (r : RngPair) :
    reviewsList r = (genReviews (genOrdersStage r).1 (genItemsStage r).2).1 := by
  delta reviewsList genReviewsStage
  with_reducible rfl

theorem genOrdersStage_eq (r : RngPair) :
    genOrdersStage r =
      genOrdersAux ((genCustomers r).1.map (fun c => c.customer_id)) num_orders 1
        (genSellers (genProducts (genCustomers r).2).2).2 := by
  delta genOrdersStage
  with_reducible rfl

theorem genItemsStage_eq (r : RngPair) :
    genItemsStage r =
      genOrderItems ((genProducts (genCustomers r).2).1.map (fun p => p.product_id))
        ((genSellers (genProducts (genCustomers r).2).2).1.map (fun s => s.seller_id))
        (genOrdersStage r).1 (genOrdersStage r).2 := by
  delta genItemsStage
  with_reducible rfl

theorem genReviewsStage_eq (r : RngPair) :
    genReviewsStage r = genReviews (genOrdersStage r).1 (genItemsStage r).2 := by
  delta genReviewsStage
  with_reducible rfl

theorem generateRecords_orders (r : RngPair) :
    (generateRecords r).orders =
      (genOrdersAux ((genCustomers r).1.map (fun c => c.customer_id)) num_orders 1
        { np := lcgPow 7600 r.np, py := r.py }).1 := by
  rw [orders_field, ordersList_full, genOrdersStage_eq, columnsState]

set_option maxRecDepth 40000 in
theorem deliveredAtSeed42 :
    10 ≤ (deliveredOrderIds
      (genOrdersAux ((genCustomers { np := 42, py := 42 }).1.map (fun c => c.customer_id))
        num_orders 1 { np := 38138, py := 42 }).1).length := by
  decide

theorem delivered_seed42_ge_ten :
    10 ≤ (deliveredOrderIds (generateRecords seed42).orders).length := by
  rw [generateRecords_orders]
  have h : lcgPow 7600 (seed42.np) = 38138 := npColumnsState42
  rw [show (seed42 : RngPair) = { np := 42, py := 42 } from rfl] at h ⊢
  rw [h]
  exact deliveredAtSeed42

theorem genOrdersAux_length (custIds : List String) :
    ∀ (n i : Nat) (r : RngPair), (genOrdersAux custIds n i r).1.length = n := by
  intro n
  induction n with
  | zero => intro i r; simp [genOrdersAux]
  | succ m ih =>
    intro i r
    simp only [genOrdersAux, List.length_cons]
    rw [ih]

theorem genItemsAux_length (o : Order) (ps ss : List String) :
    ∀ (n k : Nat) (r : RngPair), (genItemsAux o ps ss n k r).1.length = n := by
  intro n
  induction n with
  | zero => intro k r; simp [genItemsAux]
  | succ m ih =>
    intro k r
    simp only [genItemsAux, List.length_cons]
    rw [ih]

theorem genItemsForOrder_length (o : Order) (ps ss : List String) (r : RngPair) :
    1 ≤ (genItemsForOrder o ps ss r).1.length ∧
      (genItemsForOrder o ps ss r).1.length ≤ 4 := by
  simp only [genItemsForOrder, genItemsAux_length]
  exact pyRandint_bounds 1 4 r (by omega)

theorem genOrderItems_length (ps ss : List String) :
    ∀ (os : List Order) (r : RngPair),
      os.length ≤ (genOrderItems ps ss os r).1.length ∧
        (genOrderItems ps ss os r).1.length ≤ 4 * os.length := by
  intro os
  induction os with
  | nil => intro r; simp [genOrderItems]
  | cons o rest ih =>
    intro r
    simp only [genOrderItems, List.length_append, List.length_cons]
    have h1 := genItemsForOrder_length o ps ss r
    have h2 := ih (genItemsForOrder o ps ss r).2
    omega

theorem sampleAux_length :
    ∀ (n : Nat) (l : List String) (r : RngPair),
      (sampleAux n l r).1.length = min n l.length := by
  intro n
  induction n with
  | zero => intro l r; simp [sampleAux]
  | succ m ih =>
    intro l r
    simp only [sampleAux]
    by_cases hl : l.isEmpty
    · rw [if_pos hl]
      have : l = [] := List.isEmpty_iff.mp hl
      simp [this]
    · rw [if_neg hl]
      have hne : l ≠ [] := fun h => hl (by simp [h])
      have hpos : 0 < l.length := List.length_pos.mpr hne
      have hlt : (npDraw r l.length).1 < l.length := npDraw_fst_lt r _ hpos
      simp only [List.length_cons]
      rw [ih]
      have herase := length_eraseIdx_lt l (npDraw r l.length).1 hlt
      omega

theorem genReviewsAux_length (orders : List Order) :
    ∀ (ids : List String) (i : Nat) (r : RngPair),
      (genReviewsAux orders i ids r).1.length = ids.length := by
  intro ids
  induction ids with
  | nil => intro i r; simp [genReviewsAux]
  | cons oid rest ih =>
    intro i r
    simp only [genReviewsAux, List.length_cons]
    rw [ih]

theorem genReviews_length (orders : List Order) (r : RngPair) :
    (genReviews orders r).1.length = min 800 (deliveredOrderIds orders).length := by
  simp only [genReviews]
  rw [genReviewsAux_length, sampleAux_length]
  omega

theorem genCustomers_length (r : RngPair) : (genCustomers r).1.length = num_customers := by
  delta genCustomers
  simp

theorem genProducts_length (r : RngPair) : (genProducts r).1.length = num_products := by
  delta genProducts
  simp

theorem genSellers_length (r : RngPair) : (genSellers r).1.length = num_sellers := by
  delta genSellers
  simp

theorem genOrder_customer_id (i : Nat) (custIds : List String) (r : RngPair)
    (h : custIds ≠ []) : (genOrder i custIds r).1.customer_id ∈ custIds := by
  delta genOrder
  exact npChoice_mem custIds "" _ h

theorem genOrdersAux_customer_mem (custIds : List String) (h : custIds ≠ []) :
    ∀ (n i : Nat) (r : RngPair) (o : Order),
      o ∈ (genOrdersAux custIds n i r).1 → o.customer_id ∈ custIds := by
  intro n
  induction n with
  | zero => intro i r o ho; simp [genOrdersAux] at ho
  | succ m ih =>
    intro i r o ho
    simp only [genOrdersAux, List.mem_cons] at ho
    rcases ho with ho | ho
    · rw [ho]; exact genOrder_customer_id i custIds r h
    · exact ih (i + 1) _ o ho

theorem genItem_fields (o : Order) (k : Nat) (ps ss : List String) (r : RngPair)
    (hp : ps ≠ []) (hs : ss ≠ []) :
    (genItem o k ps ss r).1.product_id ∈ ps ∧
      (genItem o k ps ss r).1.seller_id ∈ ss ∧
      (genItem o k ps ss r).1.order_id = o.order_id := by
  refine ⟨?_, ?_, rfl⟩
  · exact npChoice_mem ps "" _ hp
  · exact npChoice_mem ss "" _ hs

theorem genItemsAux_mem (o : Order) (ps ss : List String) (hp : ps ≠ []) (hs : ss ≠ []) :
    ∀ (n k : Nat) (r : RngPair) (it : OrderItem),
      it ∈ (genItemsAux o ps ss n k r).1 →
        it.product_id ∈ ps ∧ it.seller_id ∈ ss ∧ it.order_id = o.order_id := by
  intro n
  induction n with
  | zero => intro k r it hit; simp [genItemsAux] at hit
  | succ m ih =>
    intro k r it hit
    simp only [genItemsAux, List.mem_cons] at hit
    rcases hit with hit | hit
    · rw [hit]; exact genItem_fields o k ps ss r hp hs
    · exact ih (k + 1) _ it hit

theorem genItemsForOrder_mem (o : Order) (ps ss : List String) (r : RngPair)
    (hp : ps ≠ []) (hs : ss ≠ []) (it : OrderItem)
    (hit : it ∈ (genItemsForOrder o ps ss r).1) :
    it.product_id ∈ ps ∧ it.seller_id ∈ ss ∧ it.order_id = o.order_id := by
  simp only [genItemsForOrder] at hit
  exact genItemsAux_mem o ps ss hp hs _ 1 _ it hit

theorem genOrderItems_mem (ps ss : List String) (hp : ps ≠ []) (hs : ss ≠ []) :
    ∀ (os : List Order) (r : RngPair) (it : OrderItem),
      it ∈ (genOrderItems ps ss os r).1 →
        it.product_id ∈ ps ∧ it.seller_id ∈ ss ∧
          ∃ o, o ∈ os ∧ it.order_id = o.order_id := by
  intro os
  induction os with
  | nil => intro r it hit; simp [genOrderItems] at hit
  | cons o rest ih =>
    intro r it hit
    simp only [genOrderItems, List.mem_append] at hit
    rcases hit with hit | hit
    · obtain ⟨h1, h2, h3⟩ := genItemsForOrder_mem o ps ss r hp hs it hit
      exact ⟨h1, h2, o, List.mem_cons_self o rest, h3⟩
    · obtain ⟨h1, h2, o2, ho2, h3⟩ := ih _ it hit
      exact ⟨h1, h2, o2, List.mem_cons_of_mem o ho2, h3⟩

theorem sampleAux_mem :
    ∀ (n : Nat) (l : List String) (r : RngPair) (x : String),
      x ∈ (sampleAux n l r).1 → x ∈ l := by
  intro n
  induction n with
  | zero => intro l r x hx; simp [sampleAux] at hx
  | succ m ih =>
    intro l r x hx
    simp only [sampleAux] at hx
    by_cases hl : l.isEmpty
    · rw [if_pos hl] at hx; simp at hx
    · rw [if_neg hl] at hx
      have hne : l ≠ [] := fun h => hl (by simp [h])
      have hpos : 0 < l.length := List.length_pos.mpr hne
      simp only [List.mem_cons] at hx
      rcases hx with hx | hx
      · rw [hx]
        exact getD_mem l _ "" (npDraw_fst_lt r _ hpos)
      · exact eraseIdx_sub l _ (ih _ _ x hx)

theorem genReviewsAux_order_mem (orders : List Order) :
    ∀ (ids : List String) (i : Nat) (r : RngPair) (rv : Review),
      rv ∈ (genReviewsAux orders i ids r).1 → rv.order_id ∈ ids := by
  intro ids
  induction ids with
  | nil => intro i r rv hrv; simp [genReviewsAux] at hrv
  | cons oid rest ih =>
    intro i r rv hrv
    simp only [genReviewsAux, List.mem_cons] at hrv
    rcases hrv with hrv | hrv
    · rw [hrv]
      left
    · right
      exact ih (i + 1) _ rv hrv

theorem genReviews_delivered (orders : List Order) (r : RngPair) (rv : Review)
    (hrv : rv ∈ (genReviews orders r).1) :
    ∃ o, o ∈ orders ∧ o.order_id = rv.order_id ∧ o.order_status = "delivered" := by
  simp only [genReviews] at hrv
  have h1 : rv.order_id ∈ deliveredOrderIds orders := by
    have h2 := genReviewsAux_order_mem orders _ 0 _ rv hrv
    exact sampleAux_mem _ _ _ _ h2
  simp only [deliveredOrderIds, List.mem_map, List.mem_filter] at h1
  obtain ⟨o, ⟨ho, hst⟩, hid⟩ := h1
  exact ⟨o, ho, hid, by simpa using hst⟩

theorem foldl_validateStep (check : String → Option DataFrame → Except String TableOutcome) :
    ∀ (l : List (String × Option DataFrame))
      (acc : List (String × Option DataFrame) × List String),
      l.foldl (validateStep check) acc =
        (acc.1 ++ l.filterMap (keptEntry check), acc.2 ++ l.filterMap (errEntry check)) := by
  intro l
  induction l with
  | nil => intro acc; simp
  | cons p t ih =>
    intro acc
    rw [List.foldl_cons, ih]
    cases hc : check p.1 p.2 with
    | error e => simp [validateStep, keptEntry, errEntry, hc]
    | ok v =>
      cases v with
      | kept df => simp [validateStep, keptEntry, errEntry, hc]
      | rejected reason => simp [validateStep, keptEntry, errEntry, hc]

theorem validateBody_eq (check : String → Option DataFrame → Except String TableOutcome)
    (ds : List (String × Option DataFrame)) :
    validateBody check ds =
      (ds.filterMap (keptEntry check), ds.filterMap (errEntry check)) := by
  delta validateBody
  rw [foldl_validateStep]
  simp

theorem validate_extracted_data_eq (ts : Nat) (ds : List (String × Option DataFrame)) :
    validate_extracted_data ts ds =
      (ds.filterMap (keptEntry (fun n d => Except.ok (checkTable ts n d))),
       ds.filterMap (errEntry (fun n d => Except.ok (checkTable ts n d)))) := by
  delta validate_extracted_data
  rw [validateBody_eq]

theorem foldl_kaggleStep (env : Env) :
    ∀ (l : List (String × String))
      (acc : List (String × Option DataFrame) × List String),
      l.foldl (kaggleStep env) acc =
        (acc.1 ++ l.filterMap (kaggleGoodEntry env),
         acc.2 ++ l.filterMap (kaggleMissEntry env)) := by
  intro l
  induction l with
  | nil => intro acc; simp
  | cons p t ih =>
    intro acc
    rw [List.foldl_cons, ih]
    cases hc : lookupFile env.raw p.2 with
    | none => simp [kaggleStep, kaggleGoodEntry, kaggleMissEntry, hc]
    | some pf =>
      cases pf with
      | corrupt => simp [kaggleStep, kaggleGoodEntry, kaggleMissEntry, hc]
      | good df => simp [kaggleStep, kaggleGoodEntry, kaggleMissEntry, hc]

theorem extract_from_kaggle_eq (env : Env) :
    extract_from_kaggle env =
      if (kaggle_files.filterMap (kaggleMissEntry env)).isEmpty then
        some (kaggle_files.filterMap (kaggleGoodEntry env))
      else none := by
  delta extract_from_kaggle
  rw [foldl_kaggleStep]
  simp

theorem foldl_sampleLoadStep (env : Env) :
    ∀ (l : List (String × String)) (acc : List (String × Option DataFrame)),
      l.foldl (sampleLoadStep env) acc = acc ++ l.filterMap (sampleLoadedEntry env) := by
  intro l
  induction l with
  | nil => intro acc; simp
  | cons p t ih =>
    intro acc
    rw [List.foldl_cons, ih]
    cases hc : lookupFile env.sample p.2 with
    | none => simp [sampleLoadStep, sampleLoadedEntry, hc]
    | some pf =>
      cases pf with
      | corrupt => simp [sampleLoadStep, sampleLoadedEntry, hc]
      | good df => simp [sampleLoadStep, sampleLoadedEntry, hc]

theorem load_existing_sample_data_eq (env : Env) :
    load_existing_sample_data env = sample_files.filterMap (sampleLoadedEntry env) := by
  delta load_existing_sample_data
  rw [foldl_sampleLoadStep]
  simp

theorem missEntries_empty_iff_all_good (env : Env) :
    ∀ (l : List (String × String)),
      (l.filterMap (kaggleMissEntry env)).isEmpty =
        l.all (fun p => isGoodFile (lookupFile env.raw p.2)) := by
  intro l
  induction l with
  | nil => simp
  | cons p t ih =>
    cases hc : lookupFile env.raw p.2 with
    | none =>
      simp [kaggleMissEntry, isGoodFile, hc]
    | some pf =>
      cases pf with
      | corrupt => simp [kaggleMissEntry, isGoodFile, hc]
      | good df =>
        simp only [List.filterMap_cons, kaggleMissEntry, hc, List.all_cons,
          isGoodFile, Bool.true_and]
        exact ih

theorem extract_from_kaggle_isSome (env : Env) :
    (extract_from_kaggle env).isSome =
      kaggle_files.all (fun p => isGoodFile (lookupFile env.raw p.2)) := by
  rw [extract_from_kaggle_eq, missEntries_empty_iff_all_good]
  cases h : kaggle_files.all (fun p => isGoodFile (lookupFile env.raw p.2)) with
  | false => simp [h]
  | true => simp [h]

theorem extract_sample_data_generates (env : Env) (h : env.sample = []) :
    extract_sample_data env =
      (some generate_sample_datasets, save_sample_data env generate_sample_datasets) := by
  delta extract_sample_data
  rw [if_pos (by simp [h])]

theorem extract_sample_data_loads (env : Env) (h : env.sample ≠ []) :
    extract_sample_data env = (some (load_existing_sample_data env), env) := by
  delta extract_sample_data
  rw [if_neg (by simpa using h)]

theorem extract_sample_data_isSome (env : Env) :
    ∃ ds, (extract_sample_data env).1 = some ds := by
  by_cases h : env.sample = []
  · exact ⟨_, by rw [extract_sample_data_generates env h]⟩
  · exact ⟨_, by rw [extract_sample_data_loads env h]⟩

theorem extract_data_kaggle (ts : Nat) (env : Env) (ds : List (String × Option DataFrame))
    (h : extract_from_kaggle env = some ds) :
    extract_data ts env = (some (validate_extracted_data ts ds).1, env) := by
  delta extract_data
  simp only [h]

theorem extract_data_sample (ts : Nat) (env : Env) (ds : List (String × Option DataFrame))
    (env1 : Env) (h : extract_from_kaggle env = none)
    (h2 : extract_sample_data env = (some ds, env1)) :
    extract_data ts env = (some (validate_extracted_data ts ds).1, env1) := by
  delta extract_data
  simp only [h, h2]

theorem checkTable_none (ts : Nat) (name : String) :
    checkTable ts name none = TableOutcome.rejected (name ++ ": Dataset is empty") := rfl

theorem checkTable_some (ts : Nat) (name : String) (df : DataFrame) :
    checkTable ts name (some df) =
      (if df.empty then TableOutcome.rejected (name ++ ": Dataset is empty")
       else if df.cols.length < 2 then
         TableOutcome.rejected (name ++ ": Dataset has too few columns")
       else if df.rows.length < 10 then
         TableOutcome.rejected (name ++ ": Dataset has too few rows")
       else
         TableOutcome.kept
           { df with attrs := some { extraction_timestamp := ts, source_name := name,
                                     null_percentage := nullPercentage df } }) := rfl

theorem checkTable_keeps (ts : Nat) (name : String) (df : DataFrame)
    (h2 : 2 ≤ df.cols.length) (h10 : 10 ≤ df.rows.length) :
    checkTable ts name (some df) =
      TableOutcome.kept
        { df with attrs := some { extraction_timestamp := ts, source_name := name,
                                  null_percentage := nullPercentage df } } := by
  rw [checkTable_some,
    if_neg (by simp only [DataFrame.empty, Bool.or_eq_true, beq_iff_eq]; omega),
    if_neg (by omega), if_neg (by omega)]

theorem checkTable_rejects (ts : Nat) (name : String) (odf : Option DataFrame)
    (h : odf = none ∨ ∃ df, odf = some df ∧
      (df.rows.length = 0 ∨ df.cols.length = 0 ∨ df.cols.length < 2 ∨ df.rows.length < 10)) :
    ∃ reason, checkTable ts name odf = TableOutcome.rejected reason := by
  rcases h with h | ⟨df, hdf, hbad⟩
  · exact ⟨name ++ ": Dataset is empty", by rw [h, checkTable_none]⟩
  · rw [hdf, checkTable_some]
    by_cases he : df.empty = true
    · exact ⟨name ++ ": Dataset is empty", by rw [if_pos he]⟩
    · rw [if_neg he]
      by_cases hc : df.cols.length < 2
      · exact ⟨name ++ ": Dataset has too few columns", by rw [if_pos hc]⟩
      · rw [if_neg hc]
        have hr : df.rows.length < 10 := by
          simp [DataFrame.empty] at he
          omega
        exact ⟨name ++ ": Dataset has too few rows", by rw [if_pos hr]⟩

theorem checkTable_kept_inv (ts : Nat) (name : String) (odf : Option DataFrame)
    (df2 : DataFrame) (h : checkTable ts name odf = TableOutcome.kept df2) :
    ∃ df, odf = some df ∧ df.empty = false ∧ 2 ≤ df.cols.length ∧
      10 ≤ df.rows.length ∧
      df2 = { df with attrs := some { extraction_timestamp := ts, source_name := name,
                                      null_percentage := nullPercentage df } } := by
  cases odf with
  | none => rw [checkTable_none] at h; cases h
  | some df =>
    rw [checkTable_some] at h
    refine ⟨df, rfl, ?_⟩
    by_cases he : df.empty = true
    · rw [if_pos he] at h; cases h
    · rw [if_neg he] at h
      by_cases hc : df.cols.length < 2
      · rw [if_pos hc] at h; cases h
      · rw [if_neg hc] at h
        by_cases hr : df.rows.length < 10
        · rw [if_pos hr] at h; cases h
        · rw [if_neg hr] at h
          cases h
          exact ⟨Bool.eq_false_iff.mpr he, by omega, by omega, rfl⟩

theorem customersDF_shape (l : List Customer) :
    (customersDF l).cols.length = 5 ∧ (customersDF l).rows.length = l.length := by
  delta customersDF
  simp

theorem productsDF_shape (l : List Product) :
    (productsDF l).cols.length = 9 ∧ (productsDF l).rows.length = l.length := by
  delta productsDF
  simp

theorem sellersDF_shape (l : List Seller) :
    (sellersDF l).cols.length = 4 ∧ (sellersDF l).rows.length = l.length := by
  delta sellersDF
  simp

theorem ordersDF_shape (l : List Order) :
    (ordersDF l).cols.length = 8 ∧ (ordersDF l).rows.length = l.length := by
  delta ordersDF
  simp

theorem orderItemsDF_shape (l : List OrderItem) :
    (orderItemsDF l).cols.length = 7 ∧ (orderItemsDF l).rows.length = l.length := by
  delta orderItemsDF
  simp

theorem reviewsDF_shape (l : List Review) :
    (reviewsDF l).cols.length = 7 ∧ (reviewsDF l).rows.length = l.length := by
  delta reviewsDF
  simp

theorem generateSampleDatasets_eq (r : RngPair) :
    generateSampleDatasets r =
      [("customers", some (customersDF (generateRecords r).customers)),
       ("products", some (productsDF (generateRecords r).products)),
       ("sellers", some (sellersDF (generateRecords r).sellers)),
       ("orders", some (ordersDF (generateRecords r).orders)),
       ("order_items", some (orderItemsDF (generateRecords r).order_items)),
       ("reviews", some (reviewsDF (generateRecords r).reviews))] := by
  delta generateSampleDatasets
  with_reducible rfl

theorem generate_sample_datasets_eq :
    generate_sample_datasets = generateSampleDatasets seed42 := by
  delta generate_sample_datasets
  with_reducible rfl

theorem ordersStage_len (r : RngPair) : (genOrdersStage r).1.length = num_orders := by
  rw [genOrdersStage_eq, genOrdersAux_length]

theorem ordersList_len (r : RngPair) : (ordersList r).length = num_orders := by
  rw [ordersList_full, ordersStage_len]

theorem reviewsList_len (r : RngPair) :
    (reviewsList r).length =
      min 800 (deliveredOrderIds (genOrdersStage r).1).length := by
  rw [reviewsList_full, genReviews_length]

theorem customers_len42 : (generateRecords seed42).customers.length = 1000 := by
  rw [customers_field, customersList_full, genCustomers_length]
  rfl

theorem products_len42 : (generateRecords seed42).products.length = 500 := by
  rw [products_field, productsList_full, genProducts_length]
  rfl

theorem sellers_len42 : (generateRecords seed42).sellers.length = 200 := by
  rw [sellers_field, sellersList_full, genSellers_length]
  rfl

theorem orders_len42 : (generateRecords seed42).orders.length = 2000 := by
  rw [orders_field, ordersList_len]
  rfl

theorem items_len42 :
    2000 ≤ (generateRecords seed42).order_items.length ∧
      (generateRecords seed42).order_items.length ≤ 8000 := by
  rw [items_field, orderItemsList_full, genItemsStage_eq]
  have h := genOrderItems_length
    ((genProducts (genCustomers seed42).2).1.map (fun p => p.product_id))
    ((genSellers (genProducts (genCustomers seed42).2).2).1.map (fun s => s.seller_id))
    (genOrdersStage seed42).1 (genOrdersStage seed42).2
  have hl : (genOrdersStage seed42).1.length = 2000 := ordersStage_len seed42
  omega

theorem delivered_stage42 :
    10 ≤ (deliveredOrderIds (genOrdersStage seed42).1).length := by
  have hd := delivered_seed42_ge_ten
  rw [orders_field, ordersList_full] at hd
  exact hd

theorem reviews_len42 :
    10 ≤ (generateRecords seed42).reviews.length ∧
      (generateRecords seed42).reviews.length ≤ 800 := by
  rw [reviews_field, reviewsList_len]
  have hd := delivered_stage42
  omega

theorem keptEntry_of_kept (check : String → Option DataFrame → Except String TableOutcome)
    (p : String × Option DataFrame) (df2 : DataFrame)
    (h : check p.1 p.2 = Except.ok (TableOutcome.kept df2)) :
    keptEntry check p = some (p.1, some df2) := by
  delta keptEntry
  rw [h]

theorem filterMap_cons_kept (check : String → Option DataFrame → Except String TableOutcome)
    (p : String × Option DataFrame) (df2 : DataFrame)
    (l : List (String × Option DataFrame))
    (h : check p.1 p.2 = Except.ok (TableOutcome.kept df2)) :
    (p :: l).filterMap (keptEntry check) =
      (p.1, some df2) :: l.filterMap (keptEntry check) := by
  rw [List.filterMap_cons, keptEntry_of_kept check p df2 h]

theorem validated_keys_42 (ts : Nat) :
    (validate_extracted_data ts generate_sample_datasets).1.map (fun p => p.1) =
      ["customers", "products", "sellers", "orders", "order_items", "reviews"] := by
  rw [generate_sample_datasets_eq, generateSampleDatasets_eq, validate_extracted_data_eq]
  have h1 := checkTable_keeps ts "customers"
    (customersDF (generateRecords seed42).customers)
    (by have := (customersDF_shape (generateRecords seed42).customers).1; omega)
    (by have := (customersDF_shape (generateRecords seed42).customers).2
        have := customers_len42
        omega)
  have h2 := checkTable_keeps ts "products"
    (productsDF (generateRecords seed42).products)
    (by have := (productsDF_shape (generateRecords seed42).products).1; omega)
    (by have := (productsDF_shape (generateRecords seed42).products).2
        have := products_len42
        omega)
  have h3 := checkTable_keeps ts "sellers"
    (sellersDF (generateRecords seed42).sellers)
    (by have := (sellersDF_shape (generateRecords seed42).sellers).1; omega)
    (by have := (sellersDF_shape (generateRecords seed42).sellers).2
        have := sellers_len42
        omega)
  have h4 := checkTable_keeps ts "orders"
    (ordersDF (generateRecords seed42).orders)
    (by have := (ordersDF_shape (generateRecords seed42).orders).1; omega)
    (by have := (ordersDF_shape (generateRecords seed42).orders).2
        have := orders_len42
        omega)
  have h5 := checkTable_keeps ts "order_items"
    (orderItemsDF (generateRecords seed42).order_items)
    (by have := (orderItemsDF_shape (generateRecords seed42).order_items).1; omega)
    (by have := (orderItemsDF_shape (generateRecords seed42).order_items).2
        have := items_len42
        omega)
  have h6 := checkTable_keeps ts "reviews"
    (reviewsDF (generateRecords seed42).reviews)
    (by have := (reviewsDF_shape (generateRecords seed42).reviews).1; omega)
    (by have := (reviewsDF_shape (generateRecords seed42).reviews).2
        have := reviews_len42
        omega)
  rw [filterMap_cons_kept (fun n d => Except.ok (checkTable ts n d))
      ("customers", some (customersDF (generateRecords seed42).customers)) _ _
      (congrArg Except.ok h1),
    filterMap_cons_kept (fun n d => Except.ok (checkTable ts n d))
      ("products", some (productsDF (generateRecords seed42).products)) _ _
      (congrArg Except.ok h2),
    filterMap_cons_kept (fun n d => Except.ok (checkTable ts n d))
      ("sellers", some (sellersDF (generateRecords seed42).sellers)) _ _
      (congrArg Except.ok h3),
    filterMap_cons_kept (fun n d => Except.ok (checkTable ts n d))
      ("orders", some (ordersDF (generateRecords seed42).orders)) _ _
      (congrArg Except.ok h4),
    filterMap_cons_kept (fun n d => Except.ok (checkTable ts n d))
      ("order_items", some (orderItemsDF (generateRecords seed42).order_items)) _ _
      (congrArg Except.ok h5),
    filterMap_cons_kept (fun n d => Except.ok (checkTable ts n d))
      ("reviews", some (reviewsDF (generateRecords seed42).reviews)) _ _
      (congrArg Except.ok h6),
    List.filterMap_nil]
  rfl

/-! ## Claims -/

/-- C1: Fallback order — whenever the raw (Kaggle) source is unavailable but
sample CSV files already exist in the sample location, `extract_data` returns
the validated collection loaded from those sample files, and the file system
is returned unchanged: in the pure embedding an unchanged file system means
the synthetic generator is never invoked and nothing is generated or
persisted.  Together with the theorem for C4 (first successful source is
validated) this captures the fixed priority order raw, sample, API. -/
theorem C1_fallback_uses_existing_sample (ts : Nat) (env : Env)
    (hraw : extract_from_kaggle env = none) (hs : env.sample ≠ []) :
    extract_data ts env =
      (some (validate_extracted_data ts (load_existing_sample_data env)).1, env) :=
  extract_data_sample ts env (load_existing_sample_data env) env hraw
    (extract_sample_data_loads env hs)

/-- Witness for C1 at a concrete file system: raw empty, one sample file
present. -/
theorem C1_witness :
    extract_data 0
        { raw := [],
          sample := [("olist_customers_dataset.csv", ParsedFile.good dfTen)],
          saveOk := fun _ => false } =
      (some (validate_extracted_data 0
          (load_existing_sample_data
            { raw := [],
              sample := [("olist_customers_dataset.csv", ParsedFile.good dfTen)],
              saveOk := fun _ => false })).1,
        { raw := [],
          sample := [("olist_customers_dataset.csv", ParsedFile.good dfTen)],
          saveOk := fun _ => false }) :=
  C1_fallback_uses_existing_sample 0
    { raw := [],
      sample := [("olist_customers_dataset.csv", ParsedFile.good dfTen)],
      saveOk := fun _ => false }
    (by rfl) (by simp)

/-- C7: Determinism — the synthetic generator is a pure function of the two
seeded stream states, so two runs from the same seed produce identical
tables (record level and table level). -/
theorem C7_generation_deterministic (r1 r2 : RngPair) (h : r1 = r2) :
    generateRecords r1 = generateRecords r2 ∧
      generateSampleDatasets r1 = generateSampleDatasets r2 :=
  ⟨congrArg generateRecords h, congrArg generateSampleDatasets h⟩

/-- Witness for C7 at the seed the source fixes (42 for both streams). -/
theorem C7_witness :
    generateRecords seed42 = generateRecords seed42 ∧
      generateSampleDatasets seed42 = generateSampleDatasets seed42 :=
  C7_generation_deterministic seed42 seed42 rfl

/-- C9: The null-percentage computation never divides by zero — a table
whose metadata is computed has already passed the column (≥ 2) and row
(≥ 10) gates, so its cell count `total_cells = rows × columns` is at least
20, in particular positive. -/
theorem C9_null_denominator_positive (ts : Nat) (name : String) (df df2 : DataFrame)
    (h : checkTable ts name (some df) = TableOutcome.kept df2) :
    20 ≤ df.rows.length * df.cols.length ∧ 0 < totalCells df := by
  obtain ⟨d, hd, _, hc, hr, _⟩ := checkTable_kept_inv ts name (some df) df2 h
  cases hd
  constructor
  · calc 20 = 10 * 2 := by norm_num
      _ ≤ df.rows.length * df.cols.length := Nat.mul_le_mul hr hc
  · delta totalCells
    have : 2 ≤ df.cols.length := hc
    have : 10 ≤ df.rows.length := hr
    positivity

/-- Witness for C9: the 10×10 fixture table is kept, and its cell count is
100 ≥ 20. -/
theorem C9_witness : 20 ≤ df100.rows.length * df100.cols.length ∧ 0 < totalCells df100 :=
  C9_null_denominator_positive 0 "t" df100 _
    (checkTable_keeps 0 "t" df100 (by decide) (by decide))

/-- C3: Validation gates and metadata — a table is kept iff it is present
and non-empty with at least 2 columns and at least 10 rows; a kept table
gets `null_percentage = nulls / (rows × columns) × 100` attached together
with the extraction timestamp and the source table name; any table that is
absent, empty, too narrow or too short is rejected with a recorded reason;
and the validation loop keeps exactly the passing tables, dropping rejected
ones without aborting the run. -/
theorem C3_validation_gates_and_metadata (ts : Nat) (name : String) (df : DataFrame)
    (h2 : 2 ≤ df.cols.length) (h10 : 10 ≤ df.rows.length) :
    checkTable ts name (some df) =
      TableOutcome.kept
        { df with attrs := some { extraction_timestamp := ts, source_name := name,
                                  null_percentage :=
                                    ((nullCells df : Rat) /
                                      ((df.rows.length * df.cols.length : Nat) : Rat)) *
                                      100 } } ∧
    (∀ e : DataFrame, e.rows.length < 10 ∨ e.cols.length < 2 →
      ∃ reason, checkTable ts name (some e) = TableOutcome.rejected reason) ∧
    (∃ reason, checkTable ts name none = TableOutcome.rejected reason) ∧
    (∀ (odf : Option DataFrame) (df2 : DataFrame),
      checkTable ts name odf = TableOutcome.kept df2 →
        ∃ d, odf = some d ∧ d.empty = false ∧ 2 ≤ d.cols.length ∧ 10 ≤ d.rows.length) ∧
    (∀ ds : List (String × Option DataFrame),
      (validate_extracted_data ts ds).1 =
        ds.filterMap (keptEntry (fun n d => Except.ok (checkTable ts n d)))) := by
  refine ⟨?_, ?_, ?_, ?_, ?_⟩
  · have h := checkTable_keeps ts name df h2 h10
    rw [h]
    have hnp : nullPercentage df =
        ((nullCells df : Rat) / ((df.rows.length * df.cols.length : Nat) : Rat)) * 100 := by
      delta nullPercentage totalCells
      rfl
    rw [hnp]
  · intro e he
    refine checkTable_rejects ts name (some e) (Or.inr ⟨e, rfl, ?_⟩)
    omega
  · exact checkTable_rejects ts name none (Or.inl rfl)
  · intro odf df2 h
    obtain ⟨d, hd, hemp, hc, hr, _⟩ := checkTable_kept_inv ts name odf df2 h
    exact ⟨d, hd, hemp, hc, hr⟩
  · intro ds
    rw [validate_extracted_data_eq]

/-- Witness for C3: the 100-cell fixture with 25 nulls is kept with
`null_percentage = 25`, and the 9-row fixture is rejected. -/
theorem C3_witness :
    checkTable 0 "t" (some df100) =
      TableOutcome.kept
        { df100 with attrs := some { extraction_timestamp := 0, source_name := "t",
                                     null_percentage :=
                                       ((nullCells df100 : Rat) /
                                         ((df100.rows.length * df100.cols.length : Nat) :
                                           Rat)) * 100 } } ∧
    ((nullCells df100 : Rat) /
        ((df100.rows.length * df100.cols.length : Nat) : Rat)) * 100 = 25 ∧
    (∃ reason, checkTable 0 "t" (some dfNine) = TableOutcome.rejected reason) := by
  have h := C3_validation_gates_and_metadata 0 "t" df100 (by decide) (by decide)
  refine ⟨h.1, ?_, h.2.1 dfNine (Or.inl (by decide))⟩
  have hn : nullCells df100 = 25 := by decide
  have ht : df100.rows.length * df100.cols.length = 100 := by decide
  rw [hn, ht]
  norm_num

/-- C8: Validator defensive fallback — if the whole validation body raises,
the unvalidated input collection is returned unchanged; a successful body
returns the validated collection; and the loop validates each table
independently — the kept collection and the recorded errors are pointwise
functions of each table's own check, so an error while checking one table
is recorded as a `Validation error` entry for that table and leaves every
other table's outcome unchanged. -/
theorem C8_validator_defensive_fallback (ts : Nat) (ds : List (String × Option DataFrame)) :
    (∀ (body : List (String × Option DataFrame) →
        Except String (List (String × Option DataFrame) × List String)) (e : String),
      body ds = Except.error e → validateTop body ds = ds) ∧
    (∀ (body : List (String × Option DataFrame) →
        Except String (List (String × Option DataFrame) × List String))
      (r : List (String × Option DataFrame) × List String),
      body ds = Except.ok r → validateTop body ds = r.1) ∧
    (∀ check : String → Option DataFrame → Except String TableOutcome,
      validateBody check ds =
        (ds.filterMap (keptEntry check), ds.filterMap (errEntry check))) ∧
    validateTop (fun l => Except.ok (validate_extracted_data ts l)) ds =
      (validate_extracted_data ts ds).1 := by
  refine ⟨?_, ?_, ?_, ?_⟩
  · intro body e h
    delta validateTop
    rw [h]
  · intro body r h
    delta validateTop
    rw [h]
  · intro check
    exact validateBody_eq check ds
  · delta validateTop
    with_reducible rfl

/-- Witness for C8: a body that raises makes the validator return its input
unchanged. -/
theorem C8_witness :
    validateTop (fun _ => Except.error "boom") [("t", none)] = [("t", none)] :=
  (C8_validator_defensive_fallback 0 [("t", none)]).1
    (fun _ => Except.error "boom") "boom" rfl

/-- Counterexample for C2: with five of the six expected sample files
present and parsing, `_load_existing_sample_data` returns the partial
five-table collection, and `extract_sample_data` reports that partial
collection as a success — the sample loader does not treat partial
availability as total failure. -/
theorem C2_counterexample :
    (load_existing_sample_data
        { raw := [],
          sample := [("olist_orders_dataset.csv", ParsedFile.good dfTen),
                     ("olist_order_items_dataset.csv", ParsedFile.good dfTen),
                     ("olist_products_dataset.csv", ParsedFile.good dfTen),
                     ("olist_sellers_dataset.csv", ParsedFile.good dfTen),
                     ("olist_order_reviews_dataset.csv", ParsedFile.good dfTen)],
          saveOk := fun _ => true }).length = 5 ∧
    (extract_sample_data
        { raw := [],
          sample := [("olist_orders_dataset.csv", ParsedFile.good dfTen),
                     ("olist_order_items_dataset.csv", ParsedFile.good dfTen),
                     ("olist_products_dataset.csv", ParsedFile.good dfTen),
                     ("olist_sellers_dataset.csv", ParsedFile.good dfTen),
                     ("olist_order_reviews_dataset.csv", ParsedFile.good dfTen)],
          saveOk := fun _ => true }).1 ≠ none := by
  constructor
  · decide
  · decide

/-- C2 (amended): all-or-nothing loading holds for the raw (Kaggle) loader —
it returns a collection exactly when every one of the six expected files is
present and parses (a parse failure counts as missing), and then the
collection consists of the six loaded tables; the sample loader, by
contrast, returns whatever subset of the six sample files loads
successfully — possibly partial — and never reports the source as
unavailable by itself. -/
theorem C2_all_or_nothing_raw_only (env : Env) :
    ((extract_from_kaggle env).isSome =
      kaggle_files.all (fun p => isGoodFile (lookupFile env.raw p.2))) ∧
    (extract_from_kaggle env = none ∨
      extract_from_kaggle env = some (kaggle_files.filterMap (kaggleGoodEntry env))) ∧
    (load_existing_sample_data env = sample_files.filterMap (sampleLoadedEntry env)) := by
  refine ⟨extract_from_kaggle_isSome env, ?_, load_existing_sample_data_eq env⟩
  rw [extract_from_kaggle_eq]
  by_cases h : (kaggle_files.filterMap (kaggleMissEntry env)).isEmpty
  · rw [if_pos h]
    right
    rfl
  · rw [if_neg h]
    left
    rfl

/-- Counterexample for C4: a file system whose raw source holds all six
expected files, each parsing to a 1-row table, makes every table fail
validation; `extract_data` then returns the empty validated collection
`some []` — a success-shaped value — rather than the failure signal
`none` that the claim requires. -/
theorem C4_counterexample :
    (extract_data 0
        { raw := [("olist_customers_dataset.csv", ParsedFile.good dfOne),
                  ("olist_orders_dataset.csv", ParsedFile.good dfOne),
                  ("olist_order_items_dataset.csv", ParsedFile.good dfOne),
                  ("olist_products_dataset.csv", ParsedFile.good dfOne),
                  ("olist_sellers_dataset.csv", ParsedFile.good dfOne),
                  ("olist_order_reviews_dataset.csv", ParsedFile.good dfOne)],
          sample := [], saveOk := fun _ => true }).1 =
      some ([] : List (String × Option DataFrame)) ∧
    some ([] : List (String × Option DataFrame)) ≠ none := by
  constructor
  · decide
  · decide

/-- C4 (amended): `extract_data` never raises; in the pure embedding the
sample stage always yields a collection, so `extract_data` always returns
`some` of the validated collection obtained from the first successful
source (raw first, otherwise the sample stage) — in particular, when
validation rejects every table it returns the empty collection `some []`,
not the failure signal `none`, which is reserved for the case that every
source fails. -/
theorem C4_extraction_failure_semantics (ts : Nat) (env : Env) :
    ∃ ds, ((extract_from_kaggle env = some ds) ∨
        (extract_from_kaggle env = none ∧ (extract_sample_data env).1 = some ds)) ∧
      (extract_data ts env).1 = some (validate_extracted_data ts ds).1 := by
  cases h : extract_from_kaggle env with
  | some ds =>
    exact ⟨ds, Or.inl rfl, by rw [extract_data_kaggle ts env ds h]⟩
  | none =>
    obtain ⟨ds, hds⟩ := extract_sample_data_isSome env
    have hpair : extract_sample_data env = (some ds, (extract_sample_data env).2) := by
      rw [← hds]
    exact ⟨ds, Or.inr ⟨rfl, hds⟩,
      by rw [extract_data_sample ts env ds (extract_sample_data env).2 h hpair]⟩

/-- C10: When `extract_sample_data` generates fresh synthetic data, the
returned collection is the in-memory generated collection regardless of
which file writes succeed — the result is the same for any two file
systems with an empty sample directory, whatever their write outcomes —
and the resulting file system is exactly the one produced by the
per-table save step, which swallows individual write failures. -/
theorem C10_persistence_failure_swallowed (env : Env) (h : env.sample = []) :
    (extract_sample_data env).1 = some generate_sample_datasets ∧
    (∀ env2 : Env, env2.sample = [] →
      (extract_sample_data env).1 = (extract_sample_data env2).1) ∧
    extract_sample_data env =
      (some generate_sample_datasets, save_sample_data env generate_sample_datasets) := by
  refine ⟨?_, ?_, extract_sample_data_generates env h⟩
  · rw [extract_sample_data_generates env h]
  · intro env2 h2
    rw [extract_sample_data_generates env h, extract_sample_data_generates env2 h2]

/-- Witness for C10: a file system where every write fails still returns
the generated collection. -/
theorem C10_witness :
    (extract_sample_data { raw := [], sample := [], saveOk := fun _ => false }).1 =
      some generate_sample_datasets :=
  (C10_persistence_failure_swallowed
    { raw := [], sample := [], saveOk := fun _ => false } rfl).1

/-- C6: Referential integrity of generated data — in every generated
collection, each order item's product id is a generated product id, its
seller id a generated seller id, and its order id the id of a generated
order; each order's customer id is a generated customer id; and reviews are
generated only for orders whose status is `delivered`. -/
theorem C6_referential_integrity (r : RngPair) :
    List.Forall (fun it : OrderItem =>
        it.product_id ∈ (generateRecords r).products.map (fun p => p.product_id) ∧
        it.seller_id ∈ (generateRecords r).sellers.map (fun s => s.seller_id) ∧
        ∃ o, o ∈ (generateRecords r).orders ∧ it.order_id = o.order_id)
      (generateRecords r).order_items ∧
    List.Forall (fun o : Order =>
        o.customer_id ∈ (generateRecords r).customers.map (fun c => c.customer_id))
      (generateRecords r).orders ∧
    List.Forall (fun rv : Review =>
        ∃ o, o ∈ (generateRecords r).orders ∧ o.order_id = rv.order_id ∧
          o.order_status = "delivered")
      (generateRecords r).reviews := by
  simp only [customers_field, products_field, sellers_field, orders_field, items_field,
    reviews_field, customersList_full, productsList_full, sellersList_full,
    ordersList_full, orderItemsList_full, reviewsList_full]
  have hpne : (genProducts (genCustomers r).2).1.map (fun p => p.product_id) ≠ [] := by
    have hl : ((genProducts (genCustomers r).2).1.map (fun p => p.product_id)).length =
        num_products := by rw [List.length_map, genProducts_length]
    intro hnil
    rw [hnil] at hl
    simp [num_products] at hl
  have hsne : (genSellers (genProducts (genCustomers r).2).2).1.map
      (fun s => s.seller_id) ≠ [] := by
    have hl : ((genSellers (genProducts (genCustomers r).2).2).1.map
        (fun s => s.seller_id)).length = num_sellers := by
      rw [List.length_map, genSellers_length]
    intro hnil
    rw [hnil] at hl
    simp [num_sellers] at hl
  have hcne : (genCustomers r).1.map (fun c => c.customer_id) ≠ [] := by
    have hl : ((genCustomers r).1.map (fun c => c.customer_id)).length =
        num_customers := by rw [List.length_map, genCustomers_length]
    intro hnil
    rw [hnil] at hl
    simp [num_customers] at hl
  refine ⟨?_, ?_, ?_⟩
  · rw [List.forall_iff_forall_mem]
    intro it hit
    rw [genItemsStage_eq] at hit
    obtain ⟨hp, hs, o, ho, hoid⟩ := genOrderItems_mem _ _ hpne hsne _ _ it hit
    exact ⟨hp, hs, o, ho, hoid⟩
  · rw [List.forall_iff_forall_mem]
    intro o ho
    rw [genOrdersStage_eq] at ho
    exact genOrdersAux_customer_mem _ hcne _ _ _ o ho
  · rw [List.forall_iff_forall_mem]
    intro rv hrv
    exact genReviews_delivered _ _ rv hrv

/-- Counterexample for C5: the claim says the generator draws an item count
of 1–5 for each order; the source draws `random.randint(1, 4)`, whose
inclusive range is 1–4.  At a concrete stream state, the draw worded by the
spec (`randint(1, 5)`) yields 5 items while the source's loop generates 4
items for the order; the two draws disagree, and item counts of 5 are
impossible in the source. -/
theorem C5_counterexample :
    numItemsSpecDraw { np := 0, py := 3 } = 5 ∧
    numItemsSourceDraw { np := 0, py := 3 } = 4 ∧
    (genItemsForOrder { order_id := "o", customer_id := "c",
                        order_status := "delivered",
                        order_purchase_timestamp := 0, order_approved_at := 0,
                        order_delivered_carrier_date := 0,
                        order_delivered_customer_date := 0,
                        order_estimated_delivery_date := 0 } ["p"] ["s"]
        { np := 0, py := 3 }).1.length = 4 ∧
    numItemsSpecDraw { np := 0, py := 3 } ≠ numItemsSourceDraw { np := 0, py := 3 } := by
  refine ⟨by decide, by decide, by decide, by decide⟩

/-- C5 (amended: the item count drawn for each order is 1–4 — the source's
`random.randint(1, 4)` is inclusive on both ends — which still yields
between 2000 and 8000 order items in total): when no raw and no sample
files are present, `extract_data` generates and persists the synthetic
collection and returns it validated; the fixed-seed generation produces
exactly 1000 customers, 500 products, 200 sellers and 2000 orders, each
order draws an item count between 1 and 4 (hence 2000–8000 order items in
total), at most 800 reviews are generated, and the returned collection has
all six keys populated and passing validation. -/
theorem C5_generation_end_to_end (ts : Nat) (env : Env)
    (hraw : extract_from_kaggle env = none) (hs : env.sample = []) :
    extract_data ts env =
      (some (validate_extracted_data ts generate_sample_datasets).1,
       save_sample_data env generate_sample_datasets) ∧
    (generateRecords seed42).customers.length = 1000 ∧
    (generateRecords seed42).products.length = 500 ∧
    (generateRecords seed42).sellers.length = 200 ∧
    (generateRecords seed42).orders.length = 2000 ∧
    (∀ (o : Order) (ps ss : List String) (r2 : RngPair),
      1 ≤ (genItemsForOrder o ps ss r2).1.length ∧
        (genItemsForOrder o ps ss r2).1.length ≤ 4) ∧
    2000 ≤ (generateRecords seed42).order_items.length ∧
    (generateRecords seed42).order_items.length ≤ 8000 ∧
    (generateRecords seed42).reviews.length ≤ 800 ∧
    (validate_extracted_data ts generate_sample_datasets).1.map (fun p => p.1) =
      ["customers", "products", "sellers", "orders", "order_items", "reviews"] := by
  refine ⟨?_, customers_len42, products_len42, sellers_len42, orders_len42,
    ?_, (items_len42).1, (items_len42).2, (reviews_len42).2, validated_keys_42 ts⟩
  · exact extract_data_sample ts env generate_sample_datasets
      (save_sample_data env generate_sample_datasets) hraw
      (extract_sample_data_generates env hs)
  · intro o ps ss r2
    exact genItemsForOrder_length o ps ss r2

/-- Witness for C5 at the empty file system with all writes succeeding. -/
theorem C5_witness :
    extract_data 0 { raw := [], sample := [], saveOk := fun _ => true } =
      (some (validate_extracted_data 0 generate_sample_datasets).1,
       save_sample_data { raw := [], sample := [], saveOk := fun _ => true }
         generate_sample_datasets) ∧
    (validate_extracted_data 0 generate_sample_datasets).1.map (fun p => p.1) =
      ["customers", "products", "sellers", "orders", "order_items", "reviews"] := by
  have h := C5_generation_end_to_end 0 { raw := [], sample := [], saveOk := fun _ => true }
    (by decide) rfl
  exact ⟨h.1, h.2.2.2.2.2.2.2.2.2⟩
